import Mathlib

set_option maxRecDepth 100000

/-!
Verification development for the CosmicStrikes arcade-shooter simulation core.

The embedding covers the two source files that implement the simulation:
  * `src/unnamed/part_011` (the `difficultyV2` module): pure progression,
    wave, combo, scoring and pressure functions;
  * `src/frontend/src/features/game.ts` (the `game` Redux slice): the state
    record, its initial value, and all reducers (`move`, `fire`, `spawnAlien`,
    `tick`, `reset`, `spawnBoss`, `updateBossHP`, ...).

Modelling conventions:
  * JavaScript numbers holding positions, velocities, timestamps and
    multipliers are modelled as exact rational numbers; every constant in the
    source is a decimal fraction, so this is exact.  Rationals are represented
    by the `Frac` structure below: a fraction `n / d` that is *not* kept in
    lowest terms, with addition, multiplication and comparison given by the
    textbook fraction formulas.  Every `Frac` built by the embedding has a
    positive denominator (literals have power-of-ten denominators and the
    operations multiply denominators), on which the comparisons are the
    rational-number comparisons.  Keeping fractions unnormalized makes every
    arithmetic operation a plain structural computation, so closed runs of
    the simulation evaluate by `decide`.
  * `score`, `lives`, HP values are modelled as `ℤ` (the source only ever
    stores integers in them); counters are `ℕ`.
  * `Math.floor` on a rational `n / d`, `d > 0`, is `Frac.floor`, floor
    division of `n` by `d`.
  * `Math.pow(level, 0.85)` appears only inside
    `Math.floor(500 * level * Math.pow(level, 0.85))`.  For a natural
    `level > 1`, `floor (500 * L * L^(17/20))` is the unique `n` with
    `n^20 ≤ 500^20 * L^37 < (n+1)^20`, i.e. the integer 20-th root of
    `500^20 * L^37`; we define it that way to stay computable.  (A check
    against IEEE-double evaluation confirms the two agree on all
    levels 1..100, the whole domain used by the game.)
  * `Date.now()` is modelled as an explicit `now : Frac` argument, and
    `Math.random()` as an explicit stream `rands : ℕ → Frac` consumed in the
    order the source draws from it.
  * Entity ids (strings `e17`, `e17-left`, `boss-e18` produced from a module
    level counter) are modelled as pairs `ℕ × ℕ`: the caller passes the fresh
    counter value and the second component distinguishes the up-to-three
    bullets produced by one `fire`.  Only the distinctness and equality
    structure of the ids is observable in the source (`findIndex`/`filter` by
    id), which this preserves.
-/

namespace CosmicStrikes

/-! ## Exact fraction arithmetic -/

/-- An exact rational number `n / d`, not necessarily in lowest terms.
All fractions the embedding constructs have `0 < d`. -/
structure Frac where
  n : ℤ
  d : ℕ
  deriving DecidableEq

instance : OfNat Frac k := ⟨⟨k, 1⟩⟩
instance : NatCast Frac := ⟨fun k => ⟨k, 1⟩⟩
instance : IntCast Frac := ⟨fun k => ⟨k, 1⟩⟩
instance : Neg Frac := ⟨fun a => ⟨-a.n, a.d⟩⟩
instance : Add Frac := ⟨fun a b => ⟨a.n * b.d + b.n * a.d, a.d * b.d⟩⟩
instance : Sub Frac := ⟨fun a b => ⟨a.n * b.d - b.n * a.d, a.d * b.d⟩⟩
instance : Mul Frac := ⟨fun a b => ⟨a.n * b.n, a.d * b.d⟩⟩
instance : OfScientific Frac :=
  ⟨fun m s e => if s then ⟨m, 10 ^ e⟩ else ⟨m * 10 ^ e, 1⟩⟩
instance : LT Frac := ⟨fun a b => a.n * (b.d : ℤ) < b.n * (a.d : ℤ)⟩
instance : LE Frac := ⟨fun a b => a.n * (b.d : ℤ) ≤ b.n * (a.d : ℤ)⟩

instance (a b : Frac) : Decidable (a < b) :=
  inferInstanceAs (Decidable (a.n * (b.d : ℤ) < b.n * (a.d : ℤ)))

instance (a b : Frac) : Decidable (a ≤ b) :=
  inferInstanceAs (Decidable (a.n * (b.d : ℤ) ≤ b.n * (a.d : ℤ)))

/-- `Math.abs` on a fraction with nonnegative denominator. -/
def Frac.abs (a : Frac) : Frac := ⟨(a.n.natAbs : ℤ), a.d⟩

/-- `Math.floor`: floor division of the numerator by the denominator. -/
def Frac.floor (a : Frac) : ℤ := a.n.fdiv (a.d : ℤ)

/-! ## Integer 20-th root (exact model of `floor(500·L·L^0.85)`) -/

/-- Binary search for the greatest `n` with `n ^ k ≤ m` on the interval
`[lo, hi)`, keeping the invariant `lo ^ k ≤ m < hi ^ k`.  The fuel bounds the
number of halvings; `500` halvings are enough for every number below
`2 ^ 500`, far above every value the game can produce. -/
def irootGo (k m : ℕ) : ℕ → ℕ → ℕ → ℕ
  | _, lo, 0 => lo
  | lo, hi, fuel + 1 =>
    if hi ≤ lo + 1 then lo
    else
      let mid := (lo + hi) / 2
      if mid ^ k ≤ m then irootGo k m mid hi fuel else irootGo k m lo mid fuel

/-- Doubling phase: the least power-of-two multiple `hi` of the start value
with `m < hi ^ k` (within the fuel). -/
def irootUp (k m : ℕ) : ℕ → ℕ → ℕ
  | 0, hi => hi
  | fuel + 1, hi => if m < hi ^ k then hi else irootUp k m fuel (2 * hi)

/-- Greatest `n` with `n ^ k ≤ m` (for `m` below `2 ^ 500` and `k ≥ 1`):
exponential search for an upper bound, then binary search. -/
def iroot (k m : ℕ) : ℕ :=
  let hi := irootUp k m 500 1
  irootGo k m (hi / 2) hi 500

/-! ## `difficultyV2` module (`src/unnamed/part_011`) -/

/-- `getRequiredScoreForLevel`: `0` for `level ≤ 1`, otherwise
`Math.floor(500 * level * Math.pow(level, 0.85))`, written as the integer
20-th root of `500^20 * level^37` (see the header comment). -/
def getRequiredScoreForLevel (level : ℕ) : ℕ :=
  if level ≤ 1 then 0 else iroot 20 (500 ^ 20 * level ^ 37)

/-- The loop body of `calculateLevelFromScore`: scan levels `level`,
`level+1`, ... while fuel lasts; the source scans `1..100` and returns `100`
after the loop. -/
def levelScan (score : ℤ) : ℕ → ℕ → ℕ
  | _, 0 => 100
  | level, fuel + 1 =>
    if score < (getRequiredScoreForLevel level : ℤ) then max 1 (level - 1)
    else levelScan score (level + 1) fuel

/-- `calculateLevelFromScore(score)`. -/
def calculateLevelFromScore (score : ℤ) : ℕ := levelScan score 1 100

inductive DifficultyBracket
  | training | cadet | pilot | veteran | ace | elite
  deriving DecidableEq

/-- `getDifficultyBracket(level)`. -/
def getDifficultyBracket (level : ℕ) : DifficultyBracket :=
  if level ≤ 10 then .training
  else if level ≤ 25 then .cadet
  else if level ≤ 40 then .pilot
  else if level ≤ 60 then .veteran
  else if level ≤ 80 then .ace
  else .elite

structure WaveConfig where
  wave : ℕ
  enemiesPerSecond : Frac
  alienSpeed : Frac
  alienHP : ℕ
  special : String
  duration : Frac
  enemiesRequired : ℤ
  deriving DecidableEq

/-- `getLevelWithinBracket(level)` (private helper in the source). -/
def getLevelWithinBracket (level : ℕ) : ℕ :=
  if level ≤ 10 then level - 1
  else if level ≤ 25 then level - 11
  else if level ≤ 40 then level - 26
  else if level ≤ 60 then level - 41
  else if level ≤ 80 then level - 61
  else level - 81

/-- `getWaveConfig(level, wave)`. -/
def getWaveConfig (level wave : ℕ) : WaveConfig :=
  let w : Frac := (wave : Frac)
  let base : Frac × Frac × ℕ × String :=
    if level ≤ 10 then
      (0.5 + (w - 1) * 0.25, 0.03 + (w - 1) * 0.0075, 1, "basic")
    else if level ≤ 25 then
      (1.2 + (w - 1) * 0.2, 0.06 + (w - 1) * 0.0075,
        if 3 ≤ wave then 2 else 1, if 3 ≤ wave then "zigzag" else "basic")
    else if level ≤ 40 then
      (2.0 + (w - 1) * 0.25, 0.09 + (w - 1) * 0.005,
        2, if 4 ≤ wave then "scouts" else "zigzag")
    else if level ≤ 60 then
      (3.0 + (w - 1) * 0.375, 0.11 + (w - 1) * 0.005,
        if 3 ≤ wave then 3 else 2, if 4 ≤ wave then "shielded" else "scouts")
    else if level ≤ 80 then
      (4.5 + (w - 1) * 0.375, 0.13 + (w - 1) * 0.005,
        if 4 ≤ wave then 4 else 3, if 3 ≤ wave then "formations" else "shielded")
    else
      (6.0 + (w - 1) * 0.5, 0.15 + (w - 1) * 0.0075,
        if 2 ≤ wave then 4 else 3, if 4 ≤ wave then "elite" else "formations")
  let scaleFactor : Frac := 1 + (getLevelWithinBracket level : Frac) * 0.02
  { wave := wave
    enemiesPerSecond := base.1 * scaleFactor
    alienSpeed := base.2.1 * scaleFactor
    alienHP := base.2.2.1
    special := base.2.2.2
    duration := 15000 + w * 3000
    enemiesRequired := ((5 + (level : Frac) * 0.3) * w).floor }

/-- `getAlienSpeed(level, wave, hasSlowMotion)`. -/
def getAlienSpeed (level wave : ℕ) (hasSlowMotion : Bool) : Frac :=
  let config := getWaveConfig level wave
  if hasSlowMotion then config.alienSpeed * 0.5 else config.alienSpeed

structure ComboInfo where
  multiplier : ℕ
  tier : String
  isPerfect : Bool
  deriving DecidableEq

/-- `getComboMultiplier(combo)`. -/
def getComboMultiplier (combo : ℕ) : ComboInfo :=
  if 50 ≤ combo then ⟨5, "PERFECT", true⟩
  else if 31 ≤ combo then ⟨4, "INCREDIBLE", false⟩
  else if 16 ≤ combo then ⟨3, "AWESOME", false⟩
  else if 6 ≤ combo then ⟨2, "GREAT", false⟩
  else ⟨1, "", false⟩

inductive DifficultyMode
  | normal | elite | mastery
  deriving DecidableEq

/-- `calculateKillScore(alienHP, wave, combo, isBoss, difficultyMode)` —
the scoring helper in `difficultyV2`
(`Math.floor(basePoints * multiplier * modeMultiplier * bossMultiplier)`
with `basePoints = 500 * alienHP * wave`). -/
def calculateKillScore (alienHP wave combo : ℕ) (isBoss : Bool)
    (difficultyMode : DifficultyMode) : ℤ :=
  let basePoints : Frac := 500 * (alienHP : Frac) * (wave : Frac)
  let multiplier : ℕ := (getComboMultiplier combo).multiplier
  let modeMultiplier : Frac :=
    if difficultyMode = .mastery then 2 else if difficultyMode = .elite then 1.5 else 1
  let bossMultiplier : Frac := if isBoss then 5 else 1
  (basePoints * (multiplier : Frac) * modeMultiplier * bossMultiplier).floor

/-- `getWaveClearBonus(wave, level)`. -/
def getWaveClearBonus (wave level : ℕ) : ℕ := 5000 * wave + level * 100

/-- `PERFECT_COMBO_BONUS`. -/
def PERFECT_COMBO_BONUS : ℕ := 10000

/-- `isBossLevel(level)`. -/
def isBossLevel (level : ℕ) : Bool :=
  decide (0 < level) && decide (level % 10 = 0) && decide (level ≤ 100)

/-- `getPowerUpDuration(level)`. -/
def getPowerUpDuration (level : ℕ) : Frac :=
  if level ≤ 25 then 8000 else if level ≤ 50 then 6000 else if level ≤ 75 then 4000 else 3000

/-- `getPowerUpDropChance(level)`. -/
def getPowerUpDropChance (level : ℕ) : Frac :=
  if level < 50 then 1 else if level < 70 then 0.85 else if level < 90 then 0.7 else 0.6

structure ScorePressure where
  comboDecay : Frac
  missedPenalty : ℤ
  idlePenalty : Bool
  deriving DecidableEq

/-- `getScorePressure(level)`. -/
def getScorePressure (level : ℕ) : ScorePressure :=
  if level < 50 then ⟨0, 0, false⟩
  else if level < 70 then ⟨0.1, 100, false⟩
  else if level < 90 then ⟨0.2, 250, true⟩
  else ⟨0.3, 500, true⟩

inductive VictoryType
  | minor | major | ultimate
  deriving DecidableEq

structure VictoryCondition where
  level : ℕ
  title : String
  type : VictoryType
  reward : String
  deriving DecidableEq

/-- The `VICTORY_CONDITIONS` table of `difficultyV2` (not consulted by the
`tick` reducer, which hard-codes its own victory ladder). -/
def VICTORY_CONDITIONS : List VictoryCondition :=
  [⟨10, "Sector Cleared", .minor, "Cadet Badge"⟩,
   ⟨25, "Pilot Status", .minor, "Pilot Wings"⟩,
   ⟨50, "Elite Sector", .major, "Elite Title + 100K Bonus"⟩,
   ⟨75, "Ace Status", .major, "Ace Medal + 500K Bonus"⟩,
   ⟨100, "COSMIC SAVIOR", .ultimate, "Credits Roll + 1M Bonus"⟩]

/-- `checkVictoryCondition(level)`. -/
def checkVictoryCondition (level : ℕ) : Option VictoryCondition :=
  VICTORY_CONDITIONS.find? fun v => decide (v.level = level)

/-! ## The `game` slice (`src/frontend/src/features/game.ts`) -/

inductive AlienType
  | red | green | blue | yellow | purple | cyan
  deriving DecidableEq

inductive PowerUp
  | fireRate | doubleBullets | spreadShot | scoreMultiplier | shield | slowMotion
  deriving DecidableEq

inductive GamePhase
  | idle | playing | paused | gameOver | boss | waveTransition | victory
  deriving DecidableEq

structure Bullet where
  id : ℕ × ℕ
  x : Frac
  y : Frac
  vx : Frac
  vy : Frac
  deriving DecidableEq

/-- The alien record.  The optional `behavior` tag of the source is omitted:
no reducer of the slice ever writes or reads it. -/
structure Alien where
  id : ℕ × ℕ
  x : Frac
  y : Frac
  type : AlienType
  hp : ℤ
  maxHp : ℤ
  isBoss : Bool
  vx : Frac
  deriving DecidableEq

structure ActivePowerUp where
  type : PowerUp
  expiresAt : Frac
  deriving DecidableEq

structure WaveNotificationData where
  wave : ℕ
  level : ℕ
  bossName : Option String
  deriving DecidableEq

@[ext]
structure GameState where
  playerX : Frac
  playerY : Frac
  bullets : List Bullet
  aliens : List Alien
  running : Bool
  score : ℤ
  lives : ℤ
  level : ℕ
  previousLevel : ℕ
  wave : ℕ
  waveKills : ℕ
  waveEnemiesSpawned : ℕ
  waveStartTime : Frac
  status : GamePhase
  difficultyMode : DifficultyMode
  activePowerUps : List ActivePowerUp
  scoreMultiplier : Frac
  combo : ℕ
  maxCombo : ℕ
  comboTimer : ℤ
  comboTier : String
  difficultyBracket : DifficultyBracket
  bossActive : Bool
  bossHP : ℤ
  bossMaxHP : ℤ
  totalKills : ℕ
  missedAliens : ℕ
  escapeStreak : ℕ
  victoryType : Option VictoryType
  victoryTitle : String
  lastShotTime : Frac
  missesInWindow : ℕ
  missWindowStart : Frac
  showWaveNotification : Bool
  waveNotificationData : Option WaveNotificationData
  shotsFired : ℕ
  shotsHit : ℕ
  gameStartTime : Frac
  powerUpsCollected : ℕ
  wavesCompleted : ℕ
  deriving DecidableEq

/-- `initialState`, with the module-load `Date.now()` passed as `t0`. -/
def initialState (t0 : Frac) : GameState where
  playerX := 0
  playerY := -2.5
  bullets := []
  aliens := []
  running := true
  score := 0
  lives := 3
  level := 1
  previousLevel := 1
  wave := 1
  waveKills := 0
  waveEnemiesSpawned := 0
  waveStartTime := 0
  status := .idle
  difficultyMode := .normal
  activePowerUps := []
  scoreMultiplier := 1
  combo := 0
  maxCombo := 0
  comboTimer := 0
  comboTier := ""
  difficultyBracket := .training
  bossActive := false
  bossHP := 0
  bossMaxHP := 0
  totalKills := 0
  missedAliens := 0
  escapeStreak := 0
  victoryType := none
  victoryTitle := ""
  lastShotTime := t0
  missesInWindow := 0
  missWindowStart := t0
  showWaveNotification := false
  waveNotificationData := none
  shotsFired := 0
  shotsHit := 0
  gameStartTime := t0
  powerUpsCollected := 0
  wavesCompleted := 0

structure AlienReward where
  points : ℕ
  powerUp : PowerUp
  deriving DecidableEq

/-- The `alienRewards` table. -/
def alienRewards : AlienType → AlienReward
  | .red => ⟨100, .fireRate⟩
  | .green => ⟨150, .shield⟩
  | .blue => ⟨200, .slowMotion⟩
  | .yellow => ⟨250, .scoreMultiplier⟩
  | .purple => ⟨300, .doubleBullets⟩
  | .cyan => ⟨350, .spreadShot⟩

/-- The `clamp` utility (`v < min ? min : v > max ? max : v`). -/
def clamp (v lo hi : Frac) : Frac := if v < lo then lo else if hi < v then hi else v

def HIT_RADIUS_NORMAL : Frac := 0.0625
def HIT_RADIUS_BOSS : Frac := 0.16
def BULLET_LIMIT : ℕ := 100
def ALIEN_LIMIT : ℕ := 80

/-- `hasPowerUp`: `state.activePowerUps.some(p => p.type === t)`. -/
def hasPowerUp (l : List ActivePowerUp) (t : PowerUp) : Bool :=
  l.any fun p => decide (p.type = t)

/-- The `move` reducer. -/
def move (dx dy sensitivity : Frac) (s : GameState) : GameState :=
  { s with playerX := clamp (s.playerX + dx * sensitivity) (-3) 3
           playerY := clamp (s.playerY + dy * sensitivity) (-3) 3 }

/-- The `fire` reducer.  `bid` is the fresh value of the module-level id
counter; `slice(-BULLET_LIMIT + 3)` keeps the newest 97 bullets. -/
def fire (now : Frac) (bid : ℕ) (s : GameState) : GameState :=
  let s := { s with lastShotTime := now }
  let s :=
    if BULLET_LIMIT ≤ s.bullets.length then
      { s with bullets := s.bullets.drop (s.bullets.length - (BULLET_LIMIT - 3)) }
    else s
  let hasSpreadShot := hasPowerUp s.activePowerUps .spreadShot
  let hasDoubleBullets := hasPowerUp s.activePowerUps .doubleBullets
  if hasSpreadShot then
    { s with bullets := s.bullets ++
        [⟨(bid, 0), s.playerX - 0.2, s.playerY + 0.5, -0.05, 0.15⟩,
         ⟨(bid, 1), s.playerX, s.playerY + 0.5, 0, 0.15⟩,
         ⟨(bid, 2), s.playerX + 0.2, s.playerY + 0.5, 0.05, 0.15⟩]
             shotsFired := s.shotsFired + 3 }
  else if hasDoubleBullets then
    { s with bullets := s.bullets ++
        [⟨(bid, 0), s.playerX - 0.1, s.playerY + 0.5, 0, 0.15⟩,
         ⟨(bid, 1), s.playerX + 0.1, s.playerY + 0.5, 0, 0.15⟩]
             shotsFired := s.shotsFired + 2 }
  else
    { s with bullets := s.bullets ++ [⟨(bid, 0), s.playerX, s.playerY + 0.5, 0, 0.15⟩]
             shotsFired := s.shotsFired + 1 }

structure SpawnAlienPayload where
  x : Frac
  y : Frac
  type : AlienType
  hp : ℤ
  isBoss : Bool := false
  vx : Frac := 0
  deriving DecidableEq

/-- The `spawnAlien` reducer (`aid` is the fresh id-counter value). -/
def spawnAlien (p : SpawnAlienPayload) (aid : ℕ) (s : GameState) : GameState :=
  if ALIEN_LIMIT ≤ s.aliens.length ∧ p.isBoss = false then s
  else
    let s := { s with aliens := s.aliens ++
      [{ id := (aid, 0), x := p.x, y := p.y, type := p.type,
         hp := p.hp, maxHp := p.hp, isBoss := p.isBoss, vx := p.vx }] }
    if p.isBoss then { s with bossActive := true } else s

/-- The `reset` reducer: `initialState` with the four timestamp fields set to
the current time. -/
def reset (now : Frac) (_s : GameState) : GameState :=
  { initialState now with waveStartTime := now }

/-- The `setGameStatus` reducer. -/
def setGameStatus (st : GamePhase) (s : GameState) : GameState := { s with status := st }

/-- The `setDifficultyMode` reducer. -/
def setDifficultyMode (m : DifficultyMode) (s : GameState) : GameState :=
  { s with difficultyMode := m }

/-- The `showWaveNotification` reducer. -/
def showWaveNotificationRed (d : WaveNotificationData) (s : GameState) : GameState :=
  { s with showWaveNotification := true, waveNotificationData := some d }

/-- The `hideWaveNotification` reducer. -/
def hideWaveNotificationRed (s : GameState) : GameState :=
  { s with showWaveNotification := false, waveNotificationData := none }

/-- The `continueAfterVictory` reducer. -/
def continueAfterVictory (s : GameState) : GameState :=
  { s with status := .playing, victoryType := none, victoryTitle := "" }

/-- The `nextWave` reducer. -/
def nextWave (now : Frac) (s : GameState) : GameState :=
  let currentWave := s.wave
  let s := { s with score := s.score + (getWaveClearBonus currentWave s.level : ℤ)
                    wavesCompleted := s.wavesCompleted + 1 }
  let s :=
    if 5 ≤ currentWave then
      if isBossLevel s.level then
        { s with status := .boss, showWaveNotification := true
                 waveNotificationData := some ⟨5, s.level, some "BOSS INCOMING"⟩ }
      else
        { s with wave := 1, showWaveNotification := true
                 waveNotificationData := some ⟨1, s.level + 1, none⟩ }
    else
      { s with wave := currentWave + 1, showWaveNotification := true
               waveNotificationData := some ⟨currentWave + 1, s.level, none⟩ }
  { s with waveKills := 0, waveEnemiesSpawned := 0, waveStartTime := now }

/-- The `startWave` reducer. -/
def startWave (now : Frac) (s : GameState) : GameState :=
  { s with status := .playing, waveStartTime := now }

/-- The `startBoss` reducer. -/
def startBoss (s : GameState) : GameState := { s with status := .boss, aliens := [] }

/-- The `incrementWaveSpawns` reducer. -/
def incrementWaveSpawns (s : GameState) : GameState :=
  { s with waveEnemiesSpawned := s.waveEnemiesSpawned + 1 }

/-- The `incrementScore` reducer. -/
def incrementScore (n : ℤ) (s : GameState) : GameState := { s with score := s.score + n }

structure SpawnBossPayload where
  hp : ℤ
  type : AlienType
  name : Option String := none
  deriving DecidableEq

/-- The `spawnBoss` reducer (`bid` is the fresh id-counter value). -/
def spawnBoss (p : SpawnBossPayload) (bid : ℕ) (s : GameState) : GameState :=
  { s with aliens := s.aliens ++
      [{ id := (bid, 0), x := 0, y := 4.5, type := p.type,
         hp := p.hp, maxHp := p.hp, isBoss := true, vx := 0.02 }]
           bossActive := true, bossHP := p.hp, bossMaxHP := p.hp, status := .boss }

/-- The `updateBossHP` reducer. -/
def updateBossHP (hp : ℤ) (s : GameState) : GameState :=
  let s := { s with bossHP := hp }
  if s.bossHP ≤ 0 then { s with bossActive := false } else s

/-- The `setVictory` reducer. -/
def setVictory (s : GameState) : GameState := { s with status := .victory }

/-! ## The `tick` reducer

`tick` is embedded as a composition of stage functions that follow the
source's statement order exactly (lines 265-558 of `game.ts`).  The local
`comboInfo` (computed from the *pre-idle-reset* combo, line 278) and
`pressure` (line 303) are threaded as parameters, as they are locals in the
source.  The final loop over escaping aliens is parameterised over its body
(`missAlienStep`) only so that a comparison variant with the 3-miss combo
reset disabled can be stated; `tick` itself always uses `missAlienStep`. -/

/-- Lines 271-279: level recalculation, bracket, combo tier.  Returns the
updated state together with the local `comboInfo`. -/
def tickHead (s : GameState) : GameState × ComboInfo :=
  let s := { s with previousLevel := s.level }
  let s := { s with level := calculateLevelFromScore s.score }
  let s := { s with difficultyBracket := getDifficultyBracket s.level }
  let comboInfo := getComboMultiplier s.combo
  ({ s with comboTier := comboInfo.tier }, comboInfo)

/-- Lines 284-288: idle soft loss, `IDLE_TIMEOUT = 15000`. -/
def idleStep (now : Frac) (s : GameState) : GameState :=
  if 0 < s.combo ∧ 15000 ≤ now - s.lastShotTime then
    { s with combo := 0, comboTimer := 0 }
  else s

/-- Lines 293-298: rolling miss window, `MISS_WINDOW = 10000`. -/
def missWindowStep (now : Frac) (s : GameState) : GameState :=
  if 10000 ≤ now - s.missWindowStart then
    { s with missesInWindow := 0, missWindowStart := now }
  else s

/-- Lines 303-310: combo decay under score pressure.
`Math.max(0, combo - 1)` is truncated subtraction on `ℕ`. -/
def decayStep (pressure : ScorePressure) (s : GameState) : GameState :=
  if 0 < s.combo ∧ 0 < pressure.comboDecay then
    let t := s.comboTimer - 16
    if t ≤ 0 then { s with combo := s.combo - 1, comboTimer := 2000 }
    else { s with comboTimer := t }
  else s

/-- Lines 313-318: drop power-ups with `expiresAt <= currentTime`. -/
def expireStep (now : Frac) (s : GameState) : GameState :=
  { s with activePowerUps := s.activePowerUps.filter fun p => decide (now < p.expiresAt) }

/-- Lines 340-341 for one bullet. -/
def moveBullet (b : Bullet) : Bullet := { b with x := b.x + b.vx, y := b.y + b.vy }

/-- Lines 336-347: advance all bullets, keep those with `y < 4.5`. -/
def moveBullets (l : List Bullet) : List Bullet :=
  (l.map moveBullet).filter fun b => decide (b.y < 4.5)

/-- Lines 353-364 for one alien: optional horizontal move with wall bounce
(`if (a.vx)` is false for `vx = 0`), then descend by `speed`. -/
def moveAlien (speed : Frac) (a : Alien) : Alien :=
  let a :=
    if a.vx ≠ 0 then
      let a := { a with x := a.x + a.vx }
      if 3.5 < a.x.abs then { a with vx := -a.vx, x := a.x + -a.vx } else a
    else a
  { a with y := a.y - speed }

/-- Lines 384-393: the per-alien hit test of the collision loop. -/
def hitTest (b : Bullet) (a : Alien) : Bool :=
  let dy := a.y - b.y
  if 0.5 < dy ∨ dy < -0.5 then false
  else
    let dx := a.x - b.x
    let distSq := dx * dx + dy * dy
    let hitRadiusSq := if a.isBoss then HIT_RADIUS_BOSS else HIT_RADIUS_NORMAL
    decide (distSq < hitRadiusSq)

/-- Lines 398-406: `findIndex` by id and in-place HP decrement; returns the
updated list and, when the decremented alien has `hp ≤ 0`, that alien
(to be pushed onto `destroyedAliens`). -/
def decHpAt : List Alien → ℕ × ℕ → List Alien × Option Alien
  | [], _ => ([], none)
  | a :: rest, i =>
    if a.id = i then
      let a2 := { a with hp := a.hp - 1 }
      (a2 :: rest, if a2.hp ≤ 0 then some a2 else none)
    else
      let r := decHpAt rest i
      (a :: r.1, r.2)

structure CollideResult where
  removed : List (ℕ × ℕ)
  aliens : List Alien
  destroyed : List Alien
  hits : ℕ
  deriving DecidableEq

/-- Lines 374-410, body of the outer bullet loop.  A bullet already marked
removed or outside `(-4, 5)` is skipped; otherwise the first alien (in list
order) passing `hitTest` is hit, the bullet is marked, `shotsHit`
incremented, and the alien's HP decremented through `findIndex` by id. -/
def collideStep (acc : CollideResult) (b : Bullet) : CollideResult :=
  if b.id ∈ acc.removed then acc
  else if b.y < -4 ∨ 5 < b.y then acc
  else
    match acc.aliens.find? (hitTest b) with
    | none => acc
    | some a =>
      let r := decHpAt acc.aliens a.id
      { removed := acc.removed ++ [b.id]
        aliens := r.1
        destroyed :=
          match r.2 with
          | some dead => acc.destroyed ++ [dead]
          | none => acc.destroyed
        hits := acc.hits + 1 }

/-- Lines 370-410: the whole collision detection pass. -/
def collideLoop (bullets : List Bullet) (aliens : List Alien) : CollideResult :=
  bullets.foldl collideStep { removed := [], aliens := aliens, destroyed := [], hits := 0 }

/-- Lines 447-452: refresh the expiry of the first power-up of this type, or
push a new entry. -/
def refreshPowerUp : List ActivePowerUp → PowerUp → Frac → List ActivePowerUp
  | [], t, e => [⟨t, e⟩]
  | p :: rest, t, e =>
    if p.type = t then { p with expiresAt := e } :: rest
    else p :: refreshPowerUp rest t e

/-- Lines 415-481, body of the kill loop, for one destroyed alien.  The
second component counts the `Math.random()` draws consumed so far (the
short-circuit `alien.isBoss || Math.random() < dropChance` draws only for
non-boss kills). -/
def processKill (now : Frac) (rands : ℕ → Frac) (p : GameState × ℕ) (alien : Alien) :
    GameState × ℕ :=
  let s := p.1
  let k := p.2
  let reward := alienRewards alien.type
  let s := { s with combo := s.combo + 1 }
  let s := { s with maxCombo := max s.maxCombo s.combo
                    comboTimer := 2000
                    totalKills := s.totalKills + 1
                    waveKills := s.waveKills + 1
                    escapeStreak := 0 }
  let s := if s.combo = 50 then { s with score := s.score + (PERFECT_COMBO_BONUS : ℤ) } else s
  let bossMultiplier : Frac := if alien.isBoss then 5 else 1
  let s := { s with score :=
    s.score + ((reward.points : Frac) * s.scoreMultiplier * bossMultiplier).floor }
  let dropChance := getPowerUpDropChance s.level
  let draw := if alien.isBoss then (true, k) else (decide (rands k < dropChance), k + 1)
  let s :=
    if draw.1 then
      let powerUpDuration := getPowerUpDuration s.level
      let expiresAt := now + powerUpDuration
      if reward.powerUp = PowerUp.shield then
        { s with lives := min 3 (s.lives + 1)
                 powerUpsCollected := s.powerUpsCollected + 1 }
      else
        { s with activePowerUps := refreshPowerUp s.activePowerUps reward.powerUp expiresAt
                 powerUpsCollected := s.powerUpsCollected + 1 }
    else s
  let s :=
    if alien.isBoss then
      let s : GameState := { s with bossActive := false }
      if 100 ≤ s.level then
        { s with status := .victory, victoryType := some .ultimate
                 victoryTitle := "COSMIC SAVIOR" }
      else if 50 ≤ s.level then
        { s with status := .victory, victoryType := some .major
                 victoryTitle := "ELITE SECTOR" }
      else if 10 ≤ s.level then
        { s with status := .victory, victoryType := some .minor
                 victoryTitle := "SECTOR CLEARED" }
      else s
    else s
  (s, draw.2)

def CANNON_HIT_RADIUS_SQ : Frac := 0.25

/-- Lines 492-514: first alien within the cannon radius costs a life, resets
combo, is removed, and triggers game over at 0 lives; at most one collision
per tick (`break`). -/
def cannonStep (s : GameState) : GameState :=
  match s.aliens.find? (fun a =>
      decide ((a.x - s.playerX) * (a.x - s.playerX) +
              (a.y - s.playerY) * (a.y - s.playerY) < CANNON_HIT_RADIUS_SQ)) with
  | none => s
  | some a =>
    let s := { s with lives := s.lives - 1, combo := 0 }
    let s := { s with aliens := s.aliens.filter fun al => decide (al.id ≠ a.id) }
    if s.lives ≤ 0 then { s with lives := 0, status := .gameOver } else s

/-- Lines 522-525: the bookkeeping of one escaped alien (life loss capped at
0, miss counters). -/
def missBase (s : GameState) : GameState :=
  { s with lives := max 0 (s.lives - 1)
           missedAliens := s.missedAliens + 1
           escapeStreak := s.escapeStreak + 1
           missesInWindow := s.missesInWindow + 1 }

/-- Lines 527-533: combo reset on the third miss inside the window. -/
def missComboReset (now : Frac) (s : GameState) : GameState :=
  if 3 ≤ s.missesInWindow then
    { s with combo := 0, comboTimer := 0, missesInWindow := 0, missWindowStart := now }
  else s

/-- Lines 535-539: a boss reaching the bottom ends the game. -/
def missBossGameOver (a : Alien) (s : GameState) : GameState :=
  if a.isBoss then { s with status := .gameOver, lives := 0 } else s

/-- Lines 541-545: five consecutive escapes end the game. -/
def missOverflow (s : GameState) : GameState :=
  if 5 ≤ s.escapeStreak then { s with status := .gameOver, lives := 0 } else s

/-- Lines 547-550: high-level score penalty, clamped at 0. -/
def missPenalty (pressure : ScorePressure) (s : GameState) : GameState :=
  if 0 < pressure.missedPenalty then
    { s with score := max 0 (s.score - pressure.missedPenalty) }
  else s

/-- Line 552: remove the escaped alien. -/
def missRemove (a : Alien) (s : GameState) : GameState :=
  { s with aliens := s.aliens.filter fun al => decide (al.id ≠ a.id) }

/-- Lines 554-556: game over when the life-loss emptied the lives. -/
def missFinal (s : GameState) : GameState :=
  if s.lives = 0 then { s with status := .gameOver } else s

/-- Lines 520-557, body of the escaped-alien loop for one alien of the
snapshot taken at loop entry (`for (const a of state.aliens)` iterates the
array as it was when the loop started even though `state.aliens` is
reassigned inside): the source's sequence of statements, in order. -/
def missAlienStep (pressure : ScorePressure) (now : Frac) (s : GameState) (a : Alien) :
    GameState :=
  if a.y < -3 then
    missFinal (missRemove a (missPenalty pressure (missOverflow
      (missBossGameOver a (missComboReset now (missBase s))))))
  else s

/-- Comparison variant of `missAlienStep` with the 3-miss combo-reset branch
(lines 528-533) disabled; used only to state the frame property of that
branch. -/
def missAlienStepNoReset (pressure : ScorePressure) (_now : Frac) (s : GameState) (a : Alien) :
    GameState :=
  if a.y < -3 then
    missFinal (missRemove a (missPenalty pressure (missOverflow
      (missBossGameOver a (missBase s)))))
  else s

/-- Lines 415-558: everything after the collision pass — kill processing,
removal filters, cannon collision, escaped aliens. -/
def tickAfterCollide (mstep : ScorePressure → Frac → GameState → Alien → GameState)
    (now : Frac) (rands : ℕ → Frac) (pressure : ScorePressure) (col : CollideResult)
    (s : GameState) : GameState :=
  let s := { s with aliens := col.aliens, shotsHit := s.shotsHit + col.hits }
  let s := (col.destroyed.foldl (processKill now rands) (s, 0)).1
  let s := { s with aliens := s.aliens.filter fun a => decide (0 < a.hp) }
  let s := { s with bullets := s.bullets.filter fun b => decide (b.id ∉ col.removed) }
  let s := cannonStep s
  s.aliens.foldl (mstep pressure now) s

/-- Lines 293-558: the tick pipeline after the idle-detection branch. -/
def tickRest (mstep : ScorePressure → Frac → GameState → Alien → GameState)
    (now : Frac) (rands : ℕ → Frac) (comboInfo : ComboInfo) (s : GameState) : GameState :=
  let s := missWindowStep now s
  let pressure := getScorePressure s.level
  let s := decayStep pressure s
  let s := expireStep now s
  let hasScoreMultiplier := hasPowerUp s.activePowerUps .scoreMultiplier
  let hasSlowMotion := hasPowerUp s.activePowerUps .slowMotion
  let powerUpMultiplier : Frac := if hasScoreMultiplier then 2 else 1
  let s := { s with scoreMultiplier := (comboInfo.multiplier : Frac) * powerUpMultiplier }
  let alienSpeed := getAlienSpeed s.level s.wave hasSlowMotion
  let s := { s with bullets := moveBullets s.bullets }
  let s := { s with aliens := s.aliens.map (moveAlien alienSpeed) }
  let col := collideLoop s.bullets s.aliens
  tickAfterCollide mstep now rands pressure col s

/-- The `tick` reducer. -/
def tick (now : Frac) (rands : ℕ → Frac) (s : GameState) : GameState :=
  let h := tickHead s
  tickRest missAlienStep now rands h.2 (idleStep now h.1)

/-- Comparison variant of `tick` with the idle-detection branch
(lines 284-288) disabled. -/
def tickNoIdle (now : Frac) (rands : ℕ → Frac) (s : GameState) : GameState :=
  let h := tickHead s
  tickRest missAlienStep now rands h.2 h.1

/-- Comparison variant of `tick` with the 3-miss combo-reset branch
(lines 528-533) disabled. -/
def tickNoMissReset (now : Frac) (rands : ℕ → Frac) (s : GameState) : GameState :=
  let h := tickHead s
  tickRest missAlienStepNoReset now rands h.2 (idleStep now h.1)

/-- The list of aliens destroyed during `tick now rands s`, recomputed from
the fields the collision pass actually depends on (score-derived level,
power-ups surviving expiry, wave, bullets, aliens).  It coincides with the
`destroyedAliens` list built inside `tick`, which reads these fields
unchanged through the stages that precede the collision pass. -/
def tickKills (now : Frac) (s : GameState) : List Alien :=
  let level := calculateLevelFromScore s.score
  let pups := s.activePowerUps.filter fun p => decide (now < p.expiresAt)
  let hasSlowMotion := hasPowerUp pups .slowMotion
  let bullets := moveBullets s.bullets
  let aliens := s.aliens.map (moveAlien (getAlienSpeed level s.wave hasSlowMotion))
  (collideLoop bullets aliens).destroyed

/-! ## Concrete runs used to settle the claims

Every run is a finite sequence of reducer applications starting from
`initialState 0`: the intent streams an external caller could dispatch.
Fresh id-counter values are passed explicitly, mirroring the module-level
`idCounter` of the source.  All clock reads happen at time `0` except where
noted, and the `Math.random()` stream is the constant `0.5` except in the
run that exhibits RNG-dependence. -/

/-- The constant random stream `0.5` (a legal `Math.random()` value). -/
def halfStream : ℕ → Frac := fun _ => 0.5

/-- `n` consecutive `fire` intents at time `0` with consecutive fresh ids. -/
def fireN : ℕ → ℕ → GameState → GameState
  | 0, _, s => s
  | n + 1, bid, s => fireN n (bid + 1) (fire 0 bid s)

/-- `n` consecutive non-boss `spawnAlien` intents at `(0, 4)`. -/
def spawnWallN : ℕ → ℕ → GameState → GameState
  | 0, _, s => s
  | n + 1, aid, s => spawnWallN n (aid + 1) (spawnAlien ⟨0, 4, .red, 1, false, 0⟩ aid s)

/-! ### Run for C1: a single red alien killed by a single bullet

Fire once (bullet at `(0, -2)`), spawn a red alien with 1 HP at `(0, -1.8)`,
tick: the bullet moves to `y = -1.85`, the alien to `y = -1.83`
(`getAlienSpeed 1 1 = 0.03`), squared distance `0.0004 < 0.0625`, so the
alien is destroyed.  Wave 1, combo 0, mode normal, no power-ups. -/
def runKillRed : GameState :=
  tick 0 halfStream (spawnAlien ⟨0, -1.8, .red, 1, false, 0⟩ 2 (fire 0 1 (initialState 0)))

/-! ### Run for C3: boss defeated at level 20

`incrementScore 127607` raises the score to exactly
`getRequiredScoreForLevel 20`, so the tick computes level 20 (a boss level).
A 1-HP boss spawned via `spawnAlien` at `(0, -1.8)` is destroyed by the
bullet fired from `(0, -2)` (boss hit radius `0.16`). -/
def runLevel20Boss : GameState :=
  tick 0 halfStream (spawnAlien ⟨0, -1.8, .red, 1, true, 0⟩ 2
    (fire 0 1 (incrementScore 127607 (initialState 0))))

/-! ### Runs for C6: the PERFECT bonus is paid twice in one match

50 bullets stacked at `(0, -2)` (50 `fire` intents before any tick) all hit
the single red alien in the same tick; the collision loop decrements the
same alien's HP once per bullet and pushes it onto `destroyedAliens` each
time its HP is `≤ 0`, so the kill loop runs 50 times: combo climbs 1..50 and
the `combo === 50` bonus fires.  A cannon collision then resets combo to 0,
and a second identical volley climbs back to 50, paying the bonus again. -/
def runPerfectA : GameState :=
  tick 0 halfStream (spawnAlien ⟨0, -1.8, .red, 1, false, 0⟩ 51 (fireN 50 1 (initialState 0)))

/-- Cannon collision (alien spawned on the player) resets the combo. -/
def runPerfectReset : GameState :=
  tick 0 halfStream (spawnAlien ⟨0, -2.5, .red, 1, false, 0⟩ 52 runPerfectA)

/-- Second 50-bullet volley; combo climbs 0 → 50 again. -/
def runPerfectB : GameState :=
  tick 0 halfStream (spawnAlien ⟨0, -1.8, .red, 1, false, 0⟩ 103 (fireN 50 53 runPerfectReset))

/-! ### Runs for C5: combo 7, then a boss reaches the bottom boundary -/

/-- Seven stacked bullets kill the red alien seven times over: combo 7. -/
def runComboSeven : GameState :=
  tick 0 halfStream (spawnAlien ⟨0, -1.8, .red, 1, false, 0⟩ 8 (fireN 7 1 (initialState 0)))

/-- A boss spawned at `(2, -2.98)` descends past `y = -3` this tick (speed
`0.03` at level 1): boss-at-bottom game over, first miss in the window. -/
def runBossBottom : GameState :=
  tick 0 halfStream (spawnAlien ⟨2, -2.98, .red, 5, true, 0⟩ 9 runComboSeven)

/-! ### Run for C2: the tick outcome depends on the `Math.random()` draw -/

/-- Score `695127 = getRequiredScoreForLevel 50`: level 50, where
`getPowerUpDropChance` first falls below 1 (to `0.85`). -/
def runL50Setup : GameState :=
  spawnAlien ⟨0, -1.8, .red, 1, false, 0⟩ 2 (fire 0 1 (incrementScore 695127 (initialState 0)))

/-! ### Runs for C7/C8: the alien cap and the `bossActive` flag -/

/-- 80 non-boss spawns: the alien list is at the `ALIEN_LIMIT`. -/
def runFullWall : GameState := spawnWallN 80 1 (initialState 0)

/-- A boss spawned from the initial state. -/
def runBossSpawned : GameState := spawnBoss ⟨40, .red, none⟩ 1 (initialState 0)


/-- A concrete boss alien for the C3 witness. -/
def bossAlienW : Alien := ⟨(1, 0), 0, 0, .red, 0, 1, true, 0⟩

/-! ### Runs for C4: the idle soft penalty changes the score

49 bullets kill the red alien 49 times over: combo 49, score 4900.  One
more bullet (fired at time 0) and a fresh 1-HP alien are queued; the next
tick arrives at time 15000, exactly at the idle timeout. -/

/-- Combo 49, score 4900, one alien destroyed 49 times by the stacked
volley. -/
def runC4a : GameState :=
  tick 0 halfStream (spawnAlien ⟨0, -1.8, .red, 1, false, 0⟩ 50 (fireN 49 1 (initialState 0)))

/-- One more bullet and one more 1-HP alien on top of `runC4a`. -/
def runC4b : GameState :=
  spawnAlien ⟨0, -1.8, .red, 1, false, 0⟩ 52 (fire 0 51 runC4a)

/-! ### Observation maps for the C4 frame properties -/

/-- Erase the fields the idle-penalty branch may influence inside one tick:
`combo`, `comboTimer`, `maxCombo` and `score`. -/
def obs (s : GameState) : GameState :=
  { s with combo := 0, comboTimer := 0, maxCombo := 0, score := 0 }

/-- Erase the fields the 3-miss combo-reset branch writes:
`combo`, `comboTimer`, `missesInWindow` and `missWindowStart`. -/
def obs3 (s : GameState) : GameState :=
  { s with combo := 0, comboTimer := 0, missesInWindow := 0, missWindowStart := 0 }

/-! ## Generic properties of `calculateLevelFromScore` -/

/-- The scan never returns below `max 1 (level - 1)` (levels only grow). -/
theorem levelScan_lower (score : ℤ) :
    ∀ fuel level, level + fuel ≤ 101 → max 1 (level - 1) ≤ levelScan score level fuel := by
  intro fuel
  induction fuel with
  | zero =>
    intro level h
    simp only [levelScan]
    omega
  | succ n ih =>
    intro level h
    simp only [levelScan]
    split
    · exact le_refl _
    · calc max 1 (level - 1) ≤ max 1 (level + 1 - 1) := by omega
        _ ≤ levelScan score (level + 1) n := ih (level + 1) (by omega)

/-- The scan is monotone in the score. -/
theorem levelScan_mono (s1 s2 : ℤ) (h : s1 ≤ s2) :
    ∀ fuel level, level + fuel ≤ 101 →
      levelScan s1 level fuel ≤ levelScan s2 level fuel := by
  intro fuel
  induction fuel with
  | zero => intro level _; simp [levelScan]
  | succ n ih =>
    intro level hl
    simp only [levelScan]
    by_cases h2 : s2 < (getRequiredScoreForLevel level : ℤ)
    · rw [if_pos h2, if_pos (lt_of_le_of_lt h h2)]
    · rw [if_neg h2]
      by_cases h1 : s1 < (getRequiredScoreForLevel level : ℤ)
      · rw [if_pos h1]
        calc max 1 (level - 1) ≤ max 1 (level + 1 - 1) := by omega
          _ ≤ levelScan s2 (level + 1) n := levelScan_lower s2 n (level + 1) (by omega)
      · rw [if_neg h1]
        exact ih (level + 1) (by omega)

end CosmicStrikes


namespace CosmicStrikes

/-! ## Claim C9: monotonicity and boundary exactness of the progression -/

/-- C9.  `calculateLevelFromScore` is monotone non-decreasing in the score,
and is exact at the thresholds: for every level `L` in `1..100`,
`calculateLevelFromScore (getRequiredScoreForLevel L) = L`. -/
theorem levelFromScore_monotone_and_exact :
    (∀ s1 s2 : ℤ, s1 ≤ s2 → calculateLevelFromScore s1 ≤ calculateLevelFromScore s2) ∧
    (∀ L < 101, 1 ≤ L →
      calculateLevelFromScore ((getRequiredScoreForLevel L : ℕ) : ℤ) = L) := by
  constructor
  · intro s1 s2 h
    exact levelScan_mono s1 s2 h 100 1 (by omega)
  · set_option maxHeartbeats 4000000 in decide

/-- Witness for C9 at concrete scores: `1802 = getRequiredScoreForLevel 2`. -/
theorem levelFromScore_monotone_and_exact_witness :
    calculateLevelFromScore 0 ≤ calculateLevelFromScore 1802 ∧
    calculateLevelFromScore ((getRequiredScoreForLevel 2 : ℕ) : ℤ) = 2 :=
  ⟨levelFromScore_monotone_and_exact.1 0 1802 (by omega),
   levelFromScore_monotone_and_exact.2 2 (by omega) (by omega)⟩

/-! ## Claim C1: what a kill actually scores -/

/-- C1 counterexample.  In `runKillRed` one red alien with `alienHP = 1` is
destroyed by a bullet at `wave = 1`, `combo = 0`, mode `normal`, non-boss,
no active power-ups.  The claimed formula
`floor(500·alienHP·wave·comboMultiplier·modeMultiplier·bossMultiplier)`
(implemented by the unused helper `calculateKillScore`) gives `500`, and the
claimed fixture `500 * rewardPoints(red)` gives `50000`; the tick credits
`rewardPoints(red) = 100`. -/
theorem killScore_formula_refuted :
    runKillRed.totalKills = 1 ∧ runKillRed.shotsHit = 1 ∧
    runKillRed.score = 100 ∧
    calculateKillScore 1 1 0 false .normal = 500 ∧
    500 * ((alienRewards AlienType.red).points : ℤ) = 50000 ∧
    runKillRed.score ≠ 500 ∧ runKillRed.score ≠ 50000 := by
  set_option maxHeartbeats 1000000 in decide

/-! ## Claim C3: the victory ladder fires at every level ≥ 10 -/

/-- C3 counterexample.  Defeating a boss at level 20 — a boss level that is
not one of the claimed victory levels 10/50/100 — grants a Minor victory
titled `SECTOR CLEARED` (and the in-tick title is upper-case, unlike the
claim's "Sector Cleared"). -/
theorem victory_at_level20_refutes_exactness :
    runLevel20Boss.level = 20 ∧ isBossLevel 20 = true ∧
    runLevel20Boss.totalKills = 1 ∧
    runLevel20Boss.status = GamePhase.victory ∧
    runLevel20Boss.victoryType = some VictoryType.minor ∧
    runLevel20Boss.victoryTitle = "SECTOR CLEARED" ∧
    (20 = 10 ∨ 20 = 50 ∨ 20 = 100) = False := by
  set_option maxHeartbeats 1000000 in decide

/-! ## Claim C6: the PERFECT bonus is re-awarded after a combo reset -/

/-- C6 counterexample.  In `runPerfectA` fifty kills in one tick climb the
combo from 0 to exactly 50: the score is `50·100 + 10000 = 15000`, i.e. the
`+10000` bonus was paid.  After a cannon collision resets the combo to 0
(`runPerfectReset`), a second fifty-kill tick climbs back to 50 and the
score rises by `50·100 + 10000` again, to `30000`: the bonus is paid a
second time in the same match. -/
theorem perfect_bonus_reawarded :
    runPerfectA.combo = 50 ∧ runPerfectA.totalKills = 50 ∧
    runPerfectA.score = 15000 ∧
    runPerfectReset.combo = 0 ∧ runPerfectReset.score = 15000 ∧
    runPerfectReset.lives = 2 ∧
    runPerfectB.combo = 50 ∧ runPerfectB.totalKills = 100 ∧
    runPerfectB.score = 30000 := by
  set_option maxHeartbeats 4000000 in decide

/-! ## Claim C5: a boss reaching the bottom boundary does not reset combo -/

/-- C5 counterexample.  With combo 7, a boss descends below `y = -3` during
the tick: the game ends (boss-at-bottom loss), a miss is recorded, but the
combo is still 7 — the boss-reaches-boundary event does not reset it. -/
theorem boss_bottom_does_not_reset_combo :
    runComboSeven.combo = 7 ∧ runComboSeven.lives = 3 ∧
    runBossBottom.missedAliens = 1 ∧
    runBossBottom.status = GamePhase.gameOver ∧ runBossBottom.lives = 0 ∧
    runBossBottom.combo = 7 := by
  set_option maxHeartbeats 1000000 in decide

/-! ## Claim C2: the tick reads the RNG into observable state -/

/-- C2 counterexample.  Two ticks on the same state with the same injected
clock but different `Math.random()` draws (both legal values in `[0, 1)`)
produce different snapshots: at level 50 the drop chance is `0.85`, so the
draw `0.1` collects a power-up and the draw `0.9` does not.  The kill-reward
RNG draw is not one of the documented idle/miss-window/power-up-expiry
timers. -/
theorem tick_depends_on_rng :
    (tick 0 (fun _ => 0.1) runL50Setup).level = 50 ∧
    (tick 0 (fun _ => 0.1) runL50Setup).powerUpsCollected = 1 ∧
    (tick 0 (fun _ => 0.9) runL50Setup).powerUpsCollected = 0 ∧
    tick 0 (fun _ => 0.1) runL50Setup ≠ tick 0 (fun _ => 0.9) runL50Setup := by
  set_option maxHeartbeats 2000000 in decide

/-! ## Claim C7: the alien cap is exceeded by boss spawns -/

/-- C7 counterexample.  After 80 non-boss spawns the list holds 80 aliens
and a further non-boss spawn is skipped, but `spawnBoss` (and `spawnAlien`
with `isBoss`) always append: the alien count reaches 81 > 80. -/
theorem alien_cap_exceeded_by_boss_spawn :
    runFullWall.aliens.length = 80 ∧
    (spawnAlien ⟨0, 4, .red, 1, false, 0⟩ 81 runFullWall).aliens.length = 80 ∧
    (spawnBoss ⟨40, .red, none⟩ 81 runFullWall).aliens.length = 81 ∧
    (spawnAlien ⟨0, 4, .red, 1, true, 0⟩ 81 runFullWall).aliens.length = 81 := by
  set_option maxHeartbeats 1000000 in decide

/-! ## Claim C8: `bossActive` desynchronizes from the alien list -/

/-- C8 counterexample.  `spawnBoss` establishes the equivalence (flag set,
exactly one boss alien), but `updateBossHP 0` clears the flag without
touching the alien list: `bossActive = false` while exactly one alien has
`isBoss = true`. -/
theorem bossActive_flag_desync :
    runBossSpawned.bossActive = true ∧
    (runBossSpawned.aliens.filter fun a => a.isBoss).length = 1 ∧
    (updateBossHP 0 runBossSpawned).bossActive = false ∧
    ((updateBossHP 0 runBossSpawned).aliens.filter fun a => a.isBoss).length = 1 := by
  decide

end CosmicStrikes

namespace CosmicStrikes

/-! ## The score delta of one kill (shared helper) -/

/-- The score written by one iteration of the kill loop: the previous score,
plus the `+10000` PERFECT bonus exactly when the incremented combo equals
50, plus `Math.floor(reward.points * state.scoreMultiplier * bossMultiplier)`. -/
theorem processKill_score (now : Frac) (rands : ℕ → Frac) (s : GameState) (k : ℕ)
    (a : Alien) :
    (processKill now rands (s, k) a).1.score =
      s.score + (if s.combo + 1 = 50 then (PERFECT_COMBO_BONUS : ℤ) else 0) +
        (((alienRewards a.type).points : Frac) * s.scoreMultiplier *
          (if a.isBoss then (5 : Frac) else 1)).floor := by
  simp only [processKill, apply_ite GameState.score, apply_ite Prod.fst,
    apply_ite Prod.snd, ite_self]
  split_ifs
  all_goals try omega
  all_goals dsimp only
  all_goals omega

end CosmicStrikes

namespace CosmicStrikes

/-- Frame facts of one kill-loop iteration: combo increments, `maxCombo` is
raised to at least the new combo, and the alien/bullet lists are untouched. -/
theorem processKill_fields (now : Frac) (rands : ℕ → Frac) (s : GameState) (k : ℕ)
    (a : Alien) :
    (processKill now rands (s, k) a).1.combo = s.combo + 1 ∧
    (processKill now rands (s, k) a).1.maxCombo = max s.maxCombo (s.combo + 1) ∧
    (processKill now rands (s, k) a).1.aliens = s.aliens ∧
    (processKill now rands (s, k) a).1.bullets = s.bullets := by
  simp only [processKill, apply_ite GameState.combo, apply_ite GameState.maxCombo,
    apply_ite GameState.aliens, apply_ite GameState.bullets, apply_ite Prod.fst, ite_self]
  simp

/-! ## Claim C3 (amended): the victory ladder of the kill loop -/

/-- C3 amended.  Destroying a boss during a tick grants a victory whose tier
depends only on which of the ranges `≥ 100`, `[50, 100)`, `[10, 50)` the
current level lies in — not on the level being exactly 10, 50 or 100; below
level 10 a boss kill changes no victory state. -/
theorem bossKill_victory_ladder (now : Frac) (rands : ℕ → Frac) (s : GameState)
    (k : ℕ) (a : Alien) (hb : a.isBoss = true) :
    (100 ≤ s.level →
      (processKill now rands (s, k) a).1.status = GamePhase.victory ∧
      (processKill now rands (s, k) a).1.victoryType = some VictoryType.ultimate ∧
      (processKill now rands (s, k) a).1.victoryTitle = "COSMIC SAVIOR") ∧
    (50 ≤ s.level → s.level < 100 →
      (processKill now rands (s, k) a).1.status = GamePhase.victory ∧
      (processKill now rands (s, k) a).1.victoryType = some VictoryType.major ∧
      (processKill now rands (s, k) a).1.victoryTitle = "ELITE SECTOR") ∧
    (10 ≤ s.level → s.level < 50 →
      (processKill now rands (s, k) a).1.status = GamePhase.victory ∧
      (processKill now rands (s, k) a).1.victoryType = some VictoryType.minor ∧
      (processKill now rands (s, k) a).1.victoryTitle = "SECTOR CLEARED") ∧
    (s.level < 10 →
      (processKill now rands (s, k) a).1.status = s.status ∧
      (processKill now rands (s, k) a).1.victoryType = s.victoryType ∧
      (processKill now rands (s, k) a).1.victoryTitle = s.victoryTitle) := by
  simp only [processKill, hb, apply_ite GameState.status, apply_ite GameState.victoryType,
    apply_ite GameState.victoryTitle, apply_ite Prod.fst, ite_self, if_true]
  split_ifs <;>
    (try dsimp only at *) <;>
    refine ⟨fun h1 => ?_, fun h2 h3 => ?_, fun h4 h5 => ?_, fun h6 => ?_⟩ <;>
    first
      | exact ⟨rfl, rfl, rfl⟩
      | omega

/-- Witness for C3 (amended) at level 20: the boss kill grants a Minor
victory even though 20 is none of 10/50/100. -/
theorem bossKill_victory_ladder_witness :
    (processKill 0 halfStream ({ initialState 0 with level := 20 }, 0) bossAlienW).1.victoryType
      = some VictoryType.minor :=
  ((bossKill_victory_ladder 0 halfStream { initialState 0 with level := 20 } 0 bossAlienW
      rfl).2.2.1 (by decide) (by decide)).2.1

end CosmicStrikes

namespace CosmicStrikes

/-! ### Per-field forms of the escaped-alien sub-steps -/

/-- `missComboReset` as a single record update. -/
theorem missComboReset_eq (now : Frac) (s : GameState) :
    missComboReset now s = { s with
      combo := if 3 ≤ s.missesInWindow then 0 else s.combo,
      comboTimer := if 3 ≤ s.missesInWindow then 0 else s.comboTimer,
      missesInWindow := if 3 ≤ s.missesInWindow then 0 else s.missesInWindow,
      missWindowStart := if 3 ≤ s.missesInWindow then now else s.missWindowStart } := by
  unfold missComboReset
  split_ifs <;> rfl

/-- `missBossGameOver` as a single record update. -/
theorem missBossGameOver_eq (a : Alien) (s : GameState) :
    missBossGameOver a s = { s with
      status := if a.isBoss then GamePhase.gameOver else s.status,
      lives := if a.isBoss then 0 else s.lives } := by
  unfold missBossGameOver
  split_ifs <;> rfl

/-- `missOverflow` as a single record update. -/
theorem missOverflow_eq (s : GameState) :
    missOverflow s = { s with
      status := if 5 ≤ s.escapeStreak then GamePhase.gameOver else s.status,
      lives := if 5 ≤ s.escapeStreak then 0 else s.lives } := by
  unfold missOverflow
  split_ifs <;> rfl

/-- `missPenalty` as a single record update. -/
theorem missPenalty_eq (p : ScorePressure) (s : GameState) :
    missPenalty p s = { s with
      score := if 0 < p.missedPenalty then max 0 (s.score - p.missedPenalty) else s.score } := by
  unfold missPenalty
  split_ifs <;> rfl

/-- `missFinal` as a single record update. -/
theorem missFinal_eq (s : GameState) :
    missFinal s = { s with
      status := if s.lives = 0 then GamePhase.gameOver else s.status } := by
  unfold missFinal
  split_ifs <;> rfl

/-! ## Claim C5 (amended): the three combo-reset events -/

/-- C5 amended.  Combo is reset to 0 by: (1) 15 seconds without a fire
intent while combo > 0 (the idle branch); (2) a player-alien collision (the
cannon branch, whenever a colliding alien is found); (3) the third miss
within the rolling 10-second window.  A *boss* reaching the lower boundary
(without being the third miss) triggers the game over but leaves the combo
unchanged — it is not a combo-reset event. -/
theorem combo_reset_events :
    (∀ (now : Frac) (s : GameState), 0 < s.combo → 15000 ≤ now - s.lastShotTime →
      (idleStep now s).combo = 0) ∧
    (∀ (s : GameState) (a : Alien),
      s.aliens.find? (fun al =>
        decide ((al.x - s.playerX) * (al.x - s.playerX) +
                (al.y - s.playerY) * (al.y - s.playerY) < CANNON_HIT_RADIUS_SQ)) = some a →
      (cannonStep s).combo = 0) ∧
    (∀ (p : ScorePressure) (now : Frac) (s : GameState) (a : Alien),
      a.y < -3 → 3 ≤ s.missesInWindow + 1 → (missAlienStep p now s a).combo = 0) ∧
    (∀ (p : ScorePressure) (now : Frac) (s : GameState) (a : Alien),
      a.y < -3 → a.isBoss = true → s.missesInWindow + 1 < 3 →
      (missAlienStep p now s a).combo = s.combo ∧
      (missAlienStep p now s a).status = GamePhase.gameOver) := by
  refine ⟨?_, ?_, ?_, ?_⟩
  · intro now s h1 h2
    unfold idleStep
    rw [if_pos ⟨h1, h2⟩]
  · intro s a h
    unfold cannonStep
    rw [h]
    dsimp only
    split <;> rfl
  · intro p now s a hy hm
    unfold missAlienStep
    rw [if_pos hy]
    simp only [missBase, missComboReset_eq, missBossGameOver_eq, missOverflow_eq,
      missPenalty_eq, missRemove, missFinal_eq]
    rw [if_pos hm]
  · intro p now s a hy hb hm
    unfold missAlienStep
    rw [if_pos hy]
    simp only [missBase, missComboReset_eq, missBossGameOver_eq, missOverflow_eq,
      missPenalty_eq, missRemove, missFinal_eq, hb, if_true]
    refine ⟨?_, ?_⟩ <;> split_ifs <;> first | rfl | omega

/-- Witness for C5 (amended): concrete instances of all four events. -/
theorem combo_reset_events_witness :
    (idleStep 15000 { initialState 0 with combo := 7 }).combo = 0 ∧
    (missAlienStep ⟨0, 0, false⟩ 0 { initialState 0 with combo := 7, missesInWindow := 2 }
      ⟨(9, 0), 0, -3.5, .red, 1, 1, false, 0⟩).combo = 0 ∧
    (missAlienStep ⟨0, 0, false⟩ 0 { initialState 0 with combo := 7 }
      ⟨(9, 0), 0, -3.5, .red, 5, 5, true, 0⟩).combo = 7 :=
  ⟨combo_reset_events.1 15000 { initialState 0 with combo := 7 } (by decide) (by decide),
   combo_reset_events.2.2.1 ⟨0, 0, false⟩ 0
     { initialState 0 with combo := 7, missesInWindow := 2 }
     ⟨(9, 0), 0, -3.5, .red, 1, 1, false, 0⟩ (by decide) (by decide),
   (combo_reset_events.2.2.2 ⟨0, 0, false⟩ 0 { initialState 0 with combo := 7 }
     ⟨(9, 0), 0, -3.5, .red, 5, 5, true, 0⟩ (by decide) (by decide) (by decide)).1⟩

/-! ## Claim C6 (amended): the multiplier table, and when the bonus fires -/

/-- C6 amended.  The combo multiplier table is exact at every boundary
(1 for 0-5, 2 for 6-15, 3 for 16-30, 4 for 31-49, 5 and tier PERFECT from
50), and the `+10000` PERFECT bonus is added by a kill exactly when that
kill raises the combo from 49 to 50 — which can happen again after the
combo is reset (see the counterexample). -/
theorem combo_table_and_bonus_at_50 :
    (∀ c : ℕ, (getComboMultiplier c).multiplier =
      if c ≤ 5 then 1 else if c ≤ 15 then 2 else if c ≤ 30 then 3
      else if c ≤ 49 then 4 else 5) ∧
    ((getComboMultiplier 49).tier = "INCREDIBLE" ∧
      (getComboMultiplier 50).tier = "PERFECT" ∧
      (getComboMultiplier 50).isPerfect = true) ∧
    (∀ (now : Frac) (rands : ℕ → Frac) (s : GameState) (k : ℕ) (a : Alien),
      s.combo = 49 →
      (processKill now rands (s, k) a).1.score =
        s.score + (PERFECT_COMBO_BONUS : ℤ) +
          (((alienRewards a.type).points : Frac) * s.scoreMultiplier *
            (if a.isBoss then (5 : Frac) else 1)).floor) ∧
    (∀ (now : Frac) (rands : ℕ → Frac) (s : GameState) (k : ℕ) (a : Alien),
      s.combo ≠ 49 →
      (processKill now rands (s, k) a).1.score =
        s.score +
          (((alienRewards a.type).points : Frac) * s.scoreMultiplier *
            (if a.isBoss then (5 : Frac) else 1)).floor) := by
  refine ⟨?_, by decide, ?_, ?_⟩
  · intro c
    unfold getComboMultiplier
    split_ifs <;> first | rfl | omega
  · intro now rands s k a h
    rw [processKill_score now rands s k a, if_pos (by omega)]
  · intro now rands s k a h
    rw [processKill_score now rands s k a, if_neg (by omega)]
    omega

/-- Witness for C6 (amended): the table at 31, and the bonus on a 49 → 50
kill of a concrete red alien. -/
theorem combo_table_and_bonus_at_50_witness :
    (getComboMultiplier 31).multiplier = 4 ∧
    (processKill 0 halfStream ({ initialState 0 with combo := 49 }, 0)
      ⟨(9, 0), 0, 0, .red, 0, 1, false, 0⟩).1.score =
      ({ initialState 0 with combo := 49 } : GameState).score + (PERFECT_COMBO_BONUS : ℤ) +
        (((alienRewards (Alien.type ⟨(9, 0), 0, 0, .red, 0, 1, false, 0⟩)).points : Frac) *
          ({ initialState 0 with combo := 49 } : GameState).scoreMultiplier *
          (if Alien.isBoss ⟨(9, 0), 0, 0, .red, 0, 1, false, 0⟩ then (5 : Frac) else 1)).floor :=
  ⟨by rw [combo_table_and_bonus_at_50.1 31]; decide,
   combo_table_and_bonus_at_50.2.2.1 0 halfStream { initialState 0 with combo := 49 } 0
     ⟨(9, 0), 0, 0, .red, 0, 1, false, 0⟩ rfl⟩

/-! ## Claim C8 (amended): how the reducers actually treat `bossActive` -/

/-- C8 amended.  `spawnBoss` sets the flag and appends exactly one boss
alien, and `updateBossHP` with `hp ≤ 0` clears the flag; but `updateBossHP`
never touches the alien list and `startBoss` clears the alien list without
touching the flag, so the flag is not equivalent to "exactly one alien has
`isBoss = true`" across all operations. -/
theorem bossActive_partial_sync :
    (∀ (p : SpawnBossPayload) (bid : ℕ) (s : GameState),
      (spawnBoss p bid s).bossActive = true ∧
      ((spawnBoss p bid s).aliens.filter fun a => a.isBoss).length =
        (s.aliens.filter fun a => a.isBoss).length + 1) ∧
    (∀ (hp : ℤ) (s : GameState), hp ≤ 0 →
      (updateBossHP hp s).bossActive = false ∧ (updateBossHP hp s).aliens = s.aliens) ∧
    (∀ (hp : ℤ) (s : GameState), 0 < hp →
      (updateBossHP hp s).bossActive = s.bossActive ∧
      (updateBossHP hp s).aliens = s.aliens) ∧
    (∀ s : GameState, (startBoss s).aliens = [] ∧ (startBoss s).bossActive = s.bossActive) := by
  refine ⟨?_, ?_, ?_, fun s => ⟨rfl, rfl⟩⟩
  · intro p bid s
    refine ⟨rfl, ?_⟩
    unfold spawnBoss
    simp [List.filter_append]
  · intro hp s h
    unfold updateBossHP
    rw [if_pos (by simpa using h)]
    exact ⟨rfl, rfl⟩
  · intro hp s h
    unfold updateBossHP
    rw [if_neg (by simpa using h)]
    exact ⟨rfl, rfl⟩

/-- Witness for C8 (amended). -/
theorem bossActive_partial_sync_witness :
    (updateBossHP 0 (initialState 0)).bossActive = false ∧
    (updateBossHP 5 (initialState 0)).bossActive = (initialState 0).bossActive :=
  ⟨(bossActive_partial_sync.2.1 0 (initialState 0) (by decide)).1,
   (bossActive_partial_sync.2.2.1 5 (initialState 0) (by decide)).1⟩

end CosmicStrikes

namespace CosmicStrikes

/-! ## Stage characterizations and count lemmas -/

/-- `idleStep` only writes `combo` and `comboTimer`. -/
theorem idleStep_eq (now : Frac) (s : GameState) :
    idleStep now s = { s with
      combo := if 0 < s.combo ∧ 15000 ≤ now - s.lastShotTime then 0 else s.combo,
      comboTimer := if 0 < s.combo ∧ 15000 ≤ now - s.lastShotTime then 0 else s.comboTimer } := by
  unfold idleStep
  split_ifs <;> rfl

/-- `missWindowStep` only writes `missesInWindow` and `missWindowStart`. -/
theorem missWindowStep_eq (now : Frac) (s : GameState) :
    missWindowStep now s = { s with
      missesInWindow := if 10000 ≤ now - s.missWindowStart then 0 else s.missesInWindow,
      missWindowStart := if 10000 ≤ now - s.missWindowStart then now else s.missWindowStart } := by
  unfold missWindowStep
  split_ifs <;> rfl

/-- `decayStep` only writes `combo` and `comboTimer`. -/
theorem decayStep_eq (p : ScorePressure) (s : GameState) :
    decayStep p s = { s with
      combo := if 0 < s.combo ∧ 0 < p.comboDecay then
          (if s.comboTimer - 16 ≤ 0 then s.combo - 1 else s.combo) else s.combo,
      comboTimer := if 0 < s.combo ∧ 0 < p.comboDecay then
          (if s.comboTimer - 16 ≤ 0 then 2000 else s.comboTimer - 16) else s.comboTimer } := by
  simp only [decayStep]
  split_ifs <;> rfl

/-- Moving bullets can only shrink the list (out-of-bounds bullets drop). -/
theorem moveBullets_length_le (l : List Bullet) : (moveBullets l).length ≤ l.length := by
  calc (moveBullets l).length ≤ (l.map moveBullet).length := List.length_filter_le _ _
    _ = l.length := List.length_map _ _

/-- The in-place HP decrement preserves the alien count. -/
theorem decHpAt_length (l : List Alien) (i : ℕ × ℕ) : (decHpAt l i).1.length = l.length := by
  induction l with
  | nil => rfl
  | cons a rest ih =>
    unfold decHpAt
    split_ifs <;> simp [ih]

/-- One collision-loop iteration preserves the alien count. -/
theorem collideStep_aliens_length (acc : CollideResult) (b : Bullet) :
    (collideStep acc b).aliens.length = acc.aliens.length := by
  unfold collideStep
  split_ifs
  · rfl
  · rfl
  · split
    · rfl
    · exact decHpAt_length _ _

/-- The collision pass preserves the alien count. -/
theorem collideLoop_aliens_length (B : List Bullet) (A : List Alien) :
    (collideLoop B A).aliens.length = A.length := by
  unfold collideLoop
  suffices h : ∀ (B : List Bullet) (acc : CollideResult),
      (B.foldl collideStep acc).aliens.length = acc.aliens.length by
    exact h B _
  intro B
  induction B with
  | nil => intro acc; rfl
  | cons b rest ih =>
    intro acc
    calc ((b :: rest).foldl collideStep acc).aliens.length
        = (rest.foldl collideStep (collideStep acc b)).aliens.length := rfl
      _ = (collideStep acc b).aliens.length := ih _
      _ = acc.aliens.length := collideStep_aliens_length acc b

/-- The kill loop touches neither the alien nor the bullet list. -/
theorem killFold_lists (now : Frac) (rands : ℕ → Frac) (L : List Alien) :
    ∀ (s : GameState) (k : ℕ),
      (List.foldl (processKill now rands) (s, k) L).1.aliens = s.aliens ∧
      (List.foldl (processKill now rands) (s, k) L).1.bullets = s.bullets := by
  induction L with
  | nil => intro s k; exact ⟨rfl, rfl⟩
  | cons a rest ih =>
    intro s k
    have hstep := processKill_fields now rands s k a
    have hpair : processKill now rands (s, k) a =
        ((processKill now rands (s, k) a).1, (processKill now rands (s, k) a).2) := rfl
    constructor
    · calc (List.foldl (processKill now rands) (s, k) (a :: rest)).1.aliens
          = (List.foldl (processKill now rands) (processKill now rands (s, k) a) rest).1.aliens := rfl
        _ = (processKill now rands (s, k) a).1.aliens := by rw [hpair]; exact (ih _ _).1
        _ = s.aliens := hstep.2.2.1
    · calc (List.foldl (processKill now rands) (s, k) (a :: rest)).1.bullets
          = (List.foldl (processKill now rands) (processKill now rands (s, k) a) rest).1.bullets := rfl
        _ = (processKill now rands (s, k) a).1.bullets := by rw [hpair]; exact (ih _ _).2
        _ = s.bullets := hstep.2.2.2

/-- The cannon collision leaves the bullet list alone. -/
theorem cannonStep_bullets (s : GameState) : (cannonStep s).bullets = s.bullets := by
  unfold cannonStep
  split
  · rfl
  · dsimp only
    split_ifs <;> rfl

/-- The cannon collision can only shrink the alien list. -/
theorem cannonStep_aliens_le (s : GameState) :
    (cannonStep s).aliens.length ≤ s.aliens.length := by
  unfold cannonStep
  split
  · exact le_refl _
  · dsimp only
    split_ifs <;> exact List.length_filter_le _ _

/-- One escaped-alien iteration leaves the bullet list alone. -/
theorem missAlienStep_bullets (p : ScorePressure) (now : Frac) (s : GameState) (a : Alien) :
    (missAlienStep p now s a).bullets = s.bullets := by
  unfold missAlienStep
  simp only [missBase, missComboReset_eq, missBossGameOver_eq, missOverflow_eq,
    missPenalty_eq, missRemove, missFinal_eq, apply_ite GameState.bullets, ite_self]

/-- One escaped-alien iteration can only shrink the alien list. -/
theorem missAlienStep_aliens_le (p : ScorePressure) (now : Frac) (s : GameState) (a : Alien) :
    (missAlienStep p now s a).aliens.length ≤ s.aliens.length := by
  unfold missAlienStep
  simp only [missBase, missComboReset_eq, missBossGameOver_eq, missOverflow_eq,
    missPenalty_eq, missRemove, missFinal_eq, apply_ite GameState.aliens, ite_self,
    apply_ite List.length]
  split_ifs <;> first | exact le_refl _ | exact List.length_filter_le _ _

/-- The escaped-alien loop leaves the bullet list alone. -/
theorem missFold_bullets (p : ScorePressure) (now : Frac) (L : List Alien) :
    ∀ s : GameState, (List.foldl (missAlienStep p now) s L).bullets = s.bullets := by
  induction L with
  | nil => intro s; rfl
  | cons a rest ih =>
    intro s
    calc (List.foldl (missAlienStep p now) s (a :: rest)).bullets
        = (List.foldl (missAlienStep p now) (missAlienStep p now s a) rest).bullets := rfl
      _ = (missAlienStep p now s a).bullets := ih _
      _ = s.bullets := missAlienStep_bullets p now s a

/-- The escaped-alien loop can only shrink the alien list. -/
theorem missFold_aliens_le (p : ScorePressure) (now : Frac) (L : List Alien) :
    ∀ s : GameState, (List.foldl (missAlienStep p now) s L).aliens.length ≤ s.aliens.length := by
  induction L with
  | nil => intro s; exact le_refl _
  | cons a rest ih =>
    intro s
    calc (List.foldl (missAlienStep p now) s (a :: rest)).aliens.length
        = (List.foldl (missAlienStep p now) (missAlienStep p now s a) rest).aliens.length := rfl
      _ ≤ (missAlienStep p now s a).aliens.length := ih _
      _ ≤ s.aliens.length := missAlienStep_aliens_le p now s a

end CosmicStrikes

namespace CosmicStrikes

/-- Counts through the post-collision part of the tick: bullets only get
filtered, aliens start from the collision output and only get filtered. -/
theorem tickAfterCollide_counts (now : Frac) (rands : ℕ → Frac) (p : ScorePressure)
    (col : CollideResult) (s : GameState) :
    (tickAfterCollide missAlienStep now rands p col s).bullets.length ≤ s.bullets.length ∧
    (tickAfterCollide missAlienStep now rands p col s).aliens.length ≤ col.aliens.length := by
  unfold tickAfterCollide
  constructor
  · rw [missFold_bullets, cannonStep_bullets]
    dsimp only
    calc (List.filter _ (List.foldl (processKill now rands) _ col.destroyed).1.bullets).length
        ≤ (List.foldl (processKill now rands) _ col.destroyed).1.bullets.length :=
          List.length_filter_le _ _
      _ = s.bullets.length := by rw [(killFold_lists now rands col.destroyed _ 0).2]
  · calc (List.foldl (missAlienStep p now) _ _).aliens.length
        ≤ (cannonStep _).aliens.length := missFold_aliens_le p now _ _
      _ ≤ _ := cannonStep_aliens_le _
      _ ≤ (List.foldl (processKill now rands) _ col.destroyed).1.aliens.length := by
          dsimp only
          exact le_trans (List.length_filter_le _ _) (le_of_eq (by rfl))
      _ = col.aliens.length := by rw [(killFold_lists now rands col.destroyed _ 0).1]

/-- A tick never increases the number of bullets or aliens. -/
theorem tick_entity_counts (now : Frac) (rands : ℕ → Frac) (s : GameState) :
    (tick now rands s).bullets.length ≤ s.bullets.length ∧
    (tick now rands s).aliens.length ≤ s.aliens.length := by
  unfold tick tickRest tickHead
  simp only [idleStep_eq, missWindowStep_eq, decayStep_eq, expireStep]
  constructor
  · exact le_trans (tickAfterCollide_counts _ _ _ _ _).1 (moveBullets_length_le _)
  · refine le_trans (tickAfterCollide_counts _ _ _ _ _).2 ?_
    rw [collideLoop_aliens_length]
    simp

end CosmicStrikes

namespace CosmicStrikes

/-! ## Claim C7 (amended): the entity caps as the code enforces them -/

/-- C7 amended.  `fire` keeps the bullet count at or below 102 (and trims to
at most 100 once the count has reached `BULLET_LIMIT`); with 97-99 bullets a
spread-shot fire reaches up to 102, so 100 is not an invariant.  Non-boss
`spawnAlien` respects the 80-alien cap by skipping, but `spawnBoss` (and
boss `spawnAlien`) always appends, so the cap can be exceeded.  `tick` never
increases either count and `reset` empties both lists. -/
theorem entity_caps_amended :
    (∀ (now : Frac) (bid : ℕ) (s : GameState), s.bullets.length ≤ 102 →
      (fire now bid s).bullets.length ≤ 102) ∧
    (∀ (now : Frac) (bid : ℕ) (s : GameState), BULLET_LIMIT ≤ s.bullets.length →
      (fire now bid s).bullets.length ≤ 100) ∧
    (∀ (p : SpawnAlienPayload) (aid : ℕ) (s : GameState), p.isBoss = false →
      s.aliens.length ≤ 80 → (spawnAlien p aid s).aliens.length ≤ 80) ∧
    (∀ (p : SpawnBossPayload) (bid : ℕ) (s : GameState),
      (spawnBoss p bid s).aliens.length = s.aliens.length + 1) ∧
    (∀ (now : Frac) (rands : ℕ → Frac) (s : GameState),
      (tick now rands s).bullets.length ≤ s.bullets.length ∧
      (tick now rands s).aliens.length ≤ s.aliens.length) ∧
    (∀ (now : Frac) (s : GameState),
      (reset now s).bullets.length = 0 ∧ (reset now s).aliens.length = 0) := by
  refine ⟨?_, ?_, ?_, ?_, tick_entity_counts, fun now s => ⟨rfl, rfl⟩⟩
  · intro now bid s h
    unfold fire
    dsimp only
    split_ifs <;> simp_all [BULLET_LIMIT] <;> omega
  · intro now bid s h
    unfold fire
    dsimp only
    split_ifs <;> simp_all [BULLET_LIMIT] <;> omega
  · intro p aid s hb h
    unfold spawnAlien
    split_ifs with h1 h2 <;> simp_all [ALIEN_LIMIT] <;> omega
  · intro p bid s
    unfold spawnBoss
    simp

/-- Witness for C7 (amended) on concrete states. -/
theorem entity_caps_amended_witness :
    (fire 0 500 runFullWall).bullets.length ≤ 102 ∧
    (spawnAlien ⟨0, 4, .red, 1, false, 0⟩ 999 runFullWall).aliens.length ≤ 80 :=
  ⟨entity_caps_amended.1 0 500 runFullWall (by decide),
   entity_caps_amended.2.2.1 ⟨0, 4, .red, 1, false, 0⟩ 999 runFullWall (by decide) (by decide)⟩

end CosmicStrikes

namespace CosmicStrikes

/-! ## Combo/maxCombo plumbing for claim C10 -/

/-- Through the kill loop the invariant `combo ≤ maxCombo` is restored at
every step and `maxCombo` never decreases. -/
theorem killFold_combo (now : Frac) (rands : ℕ → Frac) (L : List Alien) :
    ∀ (s : GameState) (k : ℕ), s.combo ≤ s.maxCombo →
      (List.foldl (processKill now rands) (s, k) L).1.combo ≤
        (List.foldl (processKill now rands) (s, k) L).1.maxCombo ∧
      s.maxCombo ≤ (List.foldl (processKill now rands) (s, k) L).1.maxCombo := by
  induction L with
  | nil => intro s k h; exact ⟨h, le_refl _⟩
  | cons a rest ih =>
    intro s k h
    have hf := processKill_fields now rands s k a
    have hpair : processKill now rands (s, k) a =
        ((processKill now rands (s, k) a).1, (processKill now rands (s, k) a).2) := rfl
    have h1 : (processKill now rands (s, k) a).1.combo ≤
        (processKill now rands (s, k) a).1.maxCombo := by
      rw [hf.1, hf.2.1]; omega
    have hrest := ih (processKill now rands (s, k) a).1 (processKill now rands (s, k) a).2 h1
    have heq : List.foldl (processKill now rands) (s, k) (a :: rest) =
        List.foldl (processKill now rands)
          ((processKill now rands (s, k) a).1, (processKill now rands (s, k) a).2) rest := by
      rw [← hpair]; rfl
    refine ⟨by rw [heq]; exact hrest.1, ?_⟩
    rw [heq]
    refine le_trans ?_ hrest.2
    rw [hf.2.1]
    omega

/-- The cannon collision never touches `maxCombo` and only zeroes `combo`. -/
theorem cannonStep_comboMax (s : GameState) :
    (cannonStep s).maxCombo = s.maxCombo ∧
    ((cannonStep s).combo = 0 ∨ (cannonStep s).combo = s.combo) := by
  unfold cannonStep
  split
  · exact ⟨rfl, Or.inr rfl⟩
  · dsimp only
    split_ifs <;> exact ⟨rfl, Or.inl rfl⟩

/-- One escaped-alien iteration never touches `maxCombo` and only zeroes
`combo`. -/
theorem missAlienStep_comboMax (p : ScorePressure) (now : Frac) (s : GameState) (a : Alien) :
    (missAlienStep p now s a).maxCombo = s.maxCombo ∧
    ((missAlienStep p now s a).combo = 0 ∨ (missAlienStep p now s a).combo = s.combo) := by
  unfold missAlienStep
  simp only [missBase, missComboReset_eq, missBossGameOver_eq, missOverflow_eq,
    missPenalty_eq, missRemove, missFinal_eq, apply_ite GameState.maxCombo,
    apply_ite GameState.combo, ite_self]
  refine ⟨?_, ?_⟩
  · simp
  · split_ifs <;> simp

/-- The escaped-alien loop preserves the invariant and `maxCombo`. -/
theorem missFold_comboMax (p : ScorePressure) (now : Frac) (L : List Alien) :
    ∀ s : GameState, (List.foldl (missAlienStep p now) s L).maxCombo = s.maxCombo ∧
      (s.combo ≤ s.maxCombo →
        (List.foldl (missAlienStep p now) s L).combo ≤
          (List.foldl (missAlienStep p now) s L).maxCombo) := by
  induction L with
  | nil => intro s; exact ⟨rfl, fun h => h⟩
  | cons a rest ih =>
    intro s
    have hstep := missAlienStep_comboMax p now s a
    have heq : List.foldl (missAlienStep p now) s (a :: rest) =
        List.foldl (missAlienStep p now) (missAlienStep p now s a) rest := rfl
    have hrest := ih (missAlienStep p now s a)
    constructor
    · rw [heq, hrest.1, hstep.1]
    · intro h
      rw [heq]
      refine hrest.2 ?_
      rw [hstep.1]
      rcases hstep.2 with h0 | h0 <;> rw [h0] <;> omega

/-- Cannon collision followed by the escaped-alien loop: the invariant is
preserved and `maxCombo` is untouched. -/
theorem cannonMiss_comboMax (p : ScorePressure) (now : Frac) (u : GameState)
    (h : u.combo ≤ u.maxCombo) :
    (List.foldl (missAlienStep p now) (cannonStep u) (cannonStep u).aliens).combo ≤
      (List.foldl (missAlienStep p now) (cannonStep u) (cannonStep u).aliens).maxCombo ∧
    (List.foldl (missAlienStep p now) (cannonStep u) (cannonStep u).aliens).maxCombo =
      u.maxCombo := by
  have hc := cannonStep_comboMax u
  have hm := missFold_comboMax p now (cannonStep u).aliens (cannonStep u)
  constructor
  · refine hm.2 ?_
    rcases hc.2 with h0 | h0 <;> rw [h0, hc.1] <;> omega
  · rw [hm.1, hc.1]

/-- Post-collision part of the tick: the invariant is preserved and
`maxCombo` never decreases. -/
theorem tickAfterCollide_comboMax (now : Frac) (rands : ℕ → Frac) (p : ScorePressure)
    (col : CollideResult) (s : GameState) (h : s.combo ≤ s.maxCombo) :
    (tickAfterCollide missAlienStep now rands p col s).combo ≤
      (tickAfterCollide missAlienStep now rands p col s).maxCombo ∧
    s.maxCombo ≤ (tickAfterCollide missAlienStep now rands p col s).maxCombo := by
  unfold tickAfterCollide
  dsimp only
  have hkill := killFold_combo now rands col.destroyed
    { s with aliens := col.aliens, shotsHit := s.shotsHit + col.hits } 0 h
  refine ⟨(cannonMiss_comboMax p now _ (by exact hkill.1)).1, ?_⟩
  rw [(cannonMiss_comboMax p now _ (by exact hkill.1)).2]
  exact hkill.2

end CosmicStrikes

namespace CosmicStrikes

/-- The whole tick preserves `combo ≤ maxCombo`, and never lowers `maxCombo`. -/
theorem tick_comboMax (now : Frac) (rands : ℕ → Frac) (s : GameState)
    (h : s.combo ≤ s.maxCombo) :
    (tick now rands s).combo ≤ (tick now rands s).maxCombo ∧
    s.maxCombo ≤ (tick now rands s).maxCombo := by
  unfold tick tickRest tickHead
  simp only [idleStep_eq, missWindowStep_eq, decayStep_eq, expireStep]
  refine ⟨(tickAfterCollide_comboMax _ _ _ _ _ ?hin).1,
    (tickAfterCollide_comboMax _ _ _ _ _ ?hin).2⟩
  case hin =>
    dsimp only
    split_ifs <;> omega

/-! ## Claim C10: `combo ≤ maxCombo` is preserved by every operation -/

/-- C10.  Every reducer preserves the invariant `combo ≤ maxCombo`; no
reducer other than `reset` ever lowers `maxCombo` (the kill loop raises it
to at least the new combo, decay and the reset events only lower `combo`);
and `reset` sets both to 0. -/
theorem combo_le_maxCombo_preserved :
    (∀ (dx dy sens : Frac) (s : GameState), s.combo ≤ s.maxCombo →
      (move dx dy sens s).combo ≤ (move dx dy sens s).maxCombo ∧
      s.maxCombo ≤ (move dx dy sens s).maxCombo) ∧
    (∀ (now : Frac) (bid : ℕ) (s : GameState), s.combo ≤ s.maxCombo →
      (fire now bid s).combo ≤ (fire now bid s).maxCombo ∧
      s.maxCombo ≤ (fire now bid s).maxCombo) ∧
    (∀ (p : SpawnAlienPayload) (aid : ℕ) (s : GameState), s.combo ≤ s.maxCombo →
      (spawnAlien p aid s).combo ≤ (spawnAlien p aid s).maxCombo ∧
      s.maxCombo ≤ (spawnAlien p aid s).maxCombo) ∧
    (∀ (now : Frac) (rands : ℕ → Frac) (s : GameState), s.combo ≤ s.maxCombo →
      (tick now rands s).combo ≤ (tick now rands s).maxCombo ∧
      s.maxCombo ≤ (tick now rands s).maxCombo) ∧
    (∀ (now : Frac) (s : GameState),
      (reset now s).combo = 0 ∧ (reset now s).maxCombo = 0) ∧
    (∀ (st : GamePhase) (s : GameState), s.combo ≤ s.maxCombo →
      (setGameStatus st s).combo ≤ (setGameStatus st s).maxCombo ∧
      s.maxCombo ≤ (setGameStatus st s).maxCombo) ∧
    (∀ (m : DifficultyMode) (s : GameState), s.combo ≤ s.maxCombo →
      (setDifficultyMode m s).combo ≤ (setDifficultyMode m s).maxCombo ∧
      s.maxCombo ≤ (setDifficultyMode m s).maxCombo) ∧
    (∀ (d : WaveNotificationData) (s : GameState), s.combo ≤ s.maxCombo →
      (showWaveNotificationRed d s).combo ≤ (showWaveNotificationRed d s).maxCombo ∧
      s.maxCombo ≤ (showWaveNotificationRed d s).maxCombo) ∧
    (∀ s : GameState, s.combo ≤ s.maxCombo →
      (hideWaveNotificationRed s).combo ≤ (hideWaveNotificationRed s).maxCombo ∧
      s.maxCombo ≤ (hideWaveNotificationRed s).maxCombo) ∧
    (∀ s : GameState, s.combo ≤ s.maxCombo →
      (continueAfterVictory s).combo ≤ (continueAfterVictory s).maxCombo ∧
      s.maxCombo ≤ (continueAfterVictory s).maxCombo) ∧
    (∀ (now : Frac) (s : GameState), s.combo ≤ s.maxCombo →
      (nextWave now s).combo ≤ (nextWave now s).maxCombo ∧
      s.maxCombo ≤ (nextWave now s).maxCombo) ∧
    (∀ (now : Frac) (s : GameState), s.combo ≤ s.maxCombo →
      (startWave now s).combo ≤ (startWave now s).maxCombo ∧
      s.maxCombo ≤ (startWave now s).maxCombo) ∧
    (∀ s : GameState, s.combo ≤ s.maxCombo →
      (startBoss s).combo ≤ (startBoss s).maxCombo ∧
      s.maxCombo ≤ (startBoss s).maxCombo) ∧
    (∀ s : GameState, s.combo ≤ s.maxCombo →
      (incrementWaveSpawns s).combo ≤ (incrementWaveSpawns s).maxCombo ∧
      s.maxCombo ≤ (incrementWaveSpawns s).maxCombo) ∧
    (∀ (n : ℤ) (s : GameState), s.combo ≤ s.maxCombo →
      (incrementScore n s).combo ≤ (incrementScore n s).maxCombo ∧
      s.maxCombo ≤ (incrementScore n s).maxCombo) ∧
    (∀ (p : SpawnBossPayload) (bid : ℕ) (s : GameState), s.combo ≤ s.maxCombo →
      (spawnBoss p bid s).combo ≤ (spawnBoss p bid s).maxCombo ∧
      s.maxCombo ≤ (spawnBoss p bid s).maxCombo) ∧
    (∀ (hp : ℤ) (s : GameState), s.combo ≤ s.maxCombo →
      (updateBossHP hp s).combo ≤ (updateBossHP hp s).maxCombo ∧
      s.maxCombo ≤ (updateBossHP hp s).maxCombo) ∧
    (∀ s : GameState, s.combo ≤ s.maxCombo →
      (setVictory s).combo ≤ (setVictory s).maxCombo ∧
      s.maxCombo ≤ (setVictory s).maxCombo) := by
  refine ⟨fun dx dy sens s h => ⟨h, le_refl _⟩,
    fun now bid s h => ?_,
    fun p aid s h => ?_,
    fun now rands s h => tick_comboMax now rands s h,
    fun now s => ⟨rfl, rfl⟩,
    fun st s h => ⟨h, le_refl _⟩,
    fun m s h => ⟨h, le_refl _⟩,
    fun d s h => ⟨h, le_refl _⟩,
    fun s h => ⟨h, le_refl _⟩,
    fun s h => ⟨h, le_refl _⟩,
    fun now s h => ?_,
    fun now s h => ⟨h, le_refl _⟩,
    fun s h => ⟨h, le_refl _⟩,
    fun s h => ⟨h, le_refl _⟩,
    fun n s h => ⟨h, le_refl _⟩,
    fun p bid s h => ⟨h, le_refl _⟩,
    fun hp s h => ?_,
    fun s h => ⟨h, le_refl _⟩⟩
  · unfold fire
    dsimp only
    split_ifs <;> exact ⟨h, le_refl _⟩
  · unfold spawnAlien
    split_ifs <;> exact ⟨h, le_refl _⟩
  · unfold nextWave
    dsimp only
    split_ifs <;> exact ⟨h, le_refl _⟩
  · unfold updateBossHP
    dsimp only
    split_ifs <;> exact ⟨h, le_refl _⟩

/-- Witness for C10 on a concrete state. -/
theorem combo_le_maxCombo_preserved_witness :
    (tick 0 halfStream runComboSeven).combo ≤ (tick 0 halfStream runComboSeven).maxCombo ∧
    (reset 0 runComboSeven).combo = 0 :=
  ⟨(combo_le_maxCombo_preserved.2.2.2.1 0 halfStream runComboSeven (by decide)).1,
   (combo_le_maxCombo_preserved.2.2.2.2.1 0 runComboSeven).1⟩

end CosmicStrikes

namespace CosmicStrikes

/-- Helper: `floor (p * 1 * 1) = p` for a cast point value. -/
theorem floor_points (p : ℕ) : (((p : ℕ) : Frac) * 1 * (1 : Frac)).floor = (p : ℤ) := by
  show ((p : ℤ) * 1 * 1).fdiv (((1 * 1 * 1 : ℕ) : ℤ)) = (p : ℤ)
  simp

/-! ## Claim C1 (amended): what a kill is credited -/

/-- C1 amended.  For every alien destroyed during a tick, the kill loop
credits `floor(rewardPoints(type) * scoreMultiplier * bossMultiplier)` —
where `scoreMultiplier` was set earlier in the tick to
`comboMultiplier * (2 if a scoreMultiplier power-up is active else 1)` and
`bossMultiplier` is 5 for a boss — plus the one-time `+10000` bonus when the
kill raises the combo to exactly 50.  In particular, with combo 0,
multiplier 1, non-boss, the credit equals `rewardPoints(type)` exactly
(not `500·rewardPoints(type)`); the spec's
`floor(500·alienHP·wave·comboMult·modeMult·bossMult)` formula lives only in
the helper `calculateKillScore`, which the tick never calls. -/
theorem tick_killScore_amended :
    (∀ (now : Frac) (rands : ℕ → Frac) (s : GameState) (k : ℕ) (a : Alien),
      (processKill now rands (s, k) a).1.score =
        s.score + (if s.combo + 1 = 50 then (PERFECT_COMBO_BONUS : ℤ) else 0) +
          (((alienRewards a.type).points : Frac) * s.scoreMultiplier *
            (if a.isBoss then (5 : Frac) else 1)).floor) ∧
    (∀ (now : Frac) (rands : ℕ → Frac) (s : GameState) (k : ℕ) (a : Alien),
      s.combo + 1 ≠ 50 → s.scoreMultiplier = 1 → a.isBoss = false →
      (processKill now rands (s, k) a).1.score =
        s.score + ((alienRewards a.type).points : ℤ)) ∧
    calculateKillScore 1 1 0 false DifficultyMode.normal = 500 := by
  refine ⟨processKill_score, ?_, by decide⟩
  intro now rands s k a h1 h2 h3
  rw [processKill_score, if_neg h1, h2, h3]
  simp only [Bool.false_eq_true, if_false]
  rw [floor_points]
  omega

/-- Witness for C1 (amended): a red alien killed at combo 0 with multiplier
1 credits exactly its 100 reward points. -/
theorem tick_killScore_amended_witness :
    (processKill 0 halfStream (initialState 0, 0) ⟨(9, 0), 0, 0, .red, 1, 1, false, 0⟩).1.score =
      (initialState 0).score + ((alienRewards AlienType.red).points : ℤ) :=
  tick_killScore_amended.2.1 0 halfStream (initialState 0) 0
    ⟨(9, 0), 0, 0, .red, 1, 1, false, 0⟩ (by decide) (by decide) (by decide)

end CosmicStrikes

namespace CosmicStrikes

/-- When the collision pass destroyed nothing, the kill fold is empty and
the random stream is never consulted. -/
theorem tickAfterCollide_rand (mstep : ScorePressure → Frac → GameState → Alien → GameState)
    (now : Frac) (r1 r2 : ℕ → Frac) (p : ScorePressure) (col : CollideResult)
    (s : GameState) (h : col.destroyed = []) :
    tickAfterCollide mstep now r1 p col s = tickAfterCollide mstep now r2 p col s := by
  simp only [tickAfterCollide, h, List.foldl_nil]

/-- The tick pipeline after the idle branch reads the random stream only in
the kill fold: if the collision pass (recomputed from the fields it depends
on) destroys nothing, the result is independent of the stream. -/
theorem tickRest_rand (mstep : ScorePressure → Frac → GameState → Alien → GameState)
    (now : Frac) (r1 r2 : ℕ → Frac) (ci : ComboInfo) (u : GameState)
    (h : (collideLoop (moveBullets u.bullets)
        (u.aliens.map (moveAlien (getAlienSpeed u.level u.wave
          (hasPowerUp (u.activePowerUps.filter fun q => decide (now < q.expiresAt))
            PowerUp.slowMotion))))).destroyed = []) :
    tickRest mstep now r1 ci u = tickRest mstep now r2 ci u := by
  simp only [tickRest]
  apply tickAfterCollide_rand
  simp only [missWindowStep_eq, decayStep_eq, expireStep]
  exact h

/-! ## Claim C2 (amended): determinism given clock and random stream -/

/-- C2 amended.  Every reducer is a pure function of its payload, the
injected clock value and — for `tick` alone — the injected `Math.random()`
stream, so two runs of the same intent stream with the same clock and
random values coincide; but `tick` does read `Math.random()` (for power-up
drops on non-boss kills), so determinism holds only relative to the stream:
whenever a tick destroys no alien (`tickKills now s = []`) its result is
independent of the stream. -/
theorem tick_deterministic_amended (now : Frac) (r1 r2 : ℕ → Frac) (s : GameState)
    (h : tickKills now s = []) : tick now r1 s = tick now r2 s := by
  simp only [tick]
  apply tickRest_rand
  simp only [tickKills] at h
  simp only [idleStep_eq, tickHead]
  exact h

/-- Witness for C2 (amended): from the initial state (no bullets, no
aliens) a tick destroys nothing, so any two random streams give the same
successor state. -/
theorem tick_deterministic_amended_witness :
    tick 0 halfStream (initialState 0) = tick 0 (fun _ => 0) (initialState 0) :=
  tick_deterministic_amended 0 halfStream (fun _ => 0) (initialState 0) rfl

end CosmicStrikes

namespace CosmicStrikes

/-! ## Claim C4: the idle soft penalty is not combo-only -/

/-- C4 counterexample.  In `runC4b` (combo 49, one queued bullet and one
fresh 1-HP alien), a tick at `now = 15000` triggers the 15-second idle
reset; the very same tick then processes the kill.  With the reset the
combo climbs from 0 to 1 and the score becomes 5300; without the idle
event (`tickNoIdle`) the combo climbs from 49 to 50, the one-time PERFECT
bonus fires, and the score becomes 15300.  Lives and status agree, but the
score differs by 10000: the idle penalty is not combo-only. -/
theorem idle_penalty_changes_score :
    (tick 15000 halfStream runC4b).score = 5300 ∧
    (tickNoIdle 15000 halfStream runC4b).score = 15300 ∧
    (tick 15000 halfStream runC4b).combo = 1 ∧
    (tickNoIdle 15000 halfStream runC4b).combo = 50 ∧
    (tick 15000 halfStream runC4b).lives = (tickNoIdle 15000 halfStream runC4b).lives ∧
    (tick 15000 halfStream runC4b).status = (tickNoIdle 15000 halfStream runC4b).status := by
  set_option maxHeartbeats 8000000 in decide

end CosmicStrikes

namespace CosmicStrikes

/-! ## Observation lemmas for the C4 frame properties

`obs` erases the four fields the idle branch can influence within one tick
(`combo`, `comboTimer`, `maxCombo`, `score`); every stage of the pipeline
after the idle branch reads, outside those four fields, only fields that
`obs` keeps, so the stage result is `obs`-determined by the `obs` of its
input.  The lemmas below prove this stage by stage and compose. -/

/-- The idle branch writes only erased fields. -/
theorem obs_idleStep (now : Frac) (s : GameState) : obs (idleStep now s) = obs s := by
  rw [idleStep_eq]
  rfl

/-- Two `obs`-equal states agree on every kept field. -/
theorem obs_kept (x y : GameState) (h : obs x = obs y) :
    x.playerX = y.playerX ∧ x.playerY = y.playerY ∧ x.bullets = y.bullets ∧
    x.aliens = y.aliens ∧ x.running = y.running ∧ x.lives = y.lives ∧
    x.level = y.level ∧ x.previousLevel = y.previousLevel ∧ x.wave = y.wave ∧
    x.waveKills = y.waveKills ∧ x.waveEnemiesSpawned = y.waveEnemiesSpawned ∧
    x.waveStartTime = y.waveStartTime ∧ x.status = y.status ∧
    x.difficultyMode = y.difficultyMode ∧ x.activePowerUps = y.activePowerUps ∧
    x.scoreMultiplier = y.scoreMultiplier ∧ x.comboTier = y.comboTier ∧
    x.difficultyBracket = y.difficultyBracket ∧ x.bossActive = y.bossActive ∧
    x.bossHP = y.bossHP ∧ x.bossMaxHP = y.bossMaxHP ∧ x.totalKills = y.totalKills ∧
    x.missedAliens = y.missedAliens ∧ x.escapeStreak = y.escapeStreak ∧
    x.victoryType = y.victoryType ∧ x.victoryTitle = y.victoryTitle ∧
    x.lastShotTime = y.lastShotTime ∧ x.missesInWindow = y.missesInWindow ∧
    x.missWindowStart = y.missWindowStart ∧
    x.showWaveNotification = y.showWaveNotification ∧
    x.waveNotificationData = y.waveNotificationData ∧ x.shotsFired = y.shotsFired ∧
    x.shotsHit = y.shotsHit ∧ x.gameStartTime = y.gameStartTime ∧
    x.powerUpsCollected = y.powerUpsCollected ∧ x.wavesCompleted = y.wavesCompleted := by
  have e01 := congrArg GameState.playerX h
  have e02 := congrArg GameState.playerY h
  have e03 := congrArg GameState.bullets h
  have e04 := congrArg GameState.aliens h
  have e05 := congrArg GameState.running h
  have e06 := congrArg GameState.lives h
  have e07 := congrArg GameState.level h
  have e08 := congrArg GameState.previousLevel h
  have e09 := congrArg GameState.wave h
  have e10 := congrArg GameState.waveKills h
  have e11 := congrArg GameState.waveEnemiesSpawned h
  have e12 := congrArg GameState.waveStartTime h
  have e13 := congrArg GameState.status h
  have e14 := congrArg GameState.difficultyMode h
  have e15 := congrArg GameState.activePowerUps h
  have e16 := congrArg GameState.scoreMultiplier h
  have e17 := congrArg GameState.comboTier h
  have e18 := congrArg GameState.difficultyBracket h
  have e19 := congrArg GameState.bossActive h
  have e20 := congrArg GameState.bossHP h
  have e21 := congrArg GameState.bossMaxHP h
  have e22 := congrArg GameState.totalKills h
  have e23 := congrArg GameState.missedAliens h
  have e24 := congrArg GameState.escapeStreak h
  have e25 := congrArg GameState.victoryType h
  have e26 := congrArg GameState.victoryTitle h
  have e27 := congrArg GameState.lastShotTime h
  have e28 := congrArg GameState.missesInWindow h
  have e29 := congrArg GameState.missWindowStart h
  have e30 := congrArg GameState.showWaveNotification h
  have e31 := congrArg GameState.waveNotificationData h
  have e32 := congrArg GameState.shotsFired h
  have e33 := congrArg GameState.shotsHit h
  have e34 := congrArg GameState.gameStartTime h
  have e35 := congrArg GameState.powerUpsCollected h
  have e36 := congrArg GameState.wavesCompleted h
  exact ⟨e01, e02, e03, e04, e05, e06, e07, e08, e09, e10, e11, e12, e13, e14, e15, e16,
    e17, e18, e19, e20, e21, e22, e23, e24, e25, e26, e27, e28, e29, e30, e31, e32, e33,
    e34, e35, e36⟩

/-- The second component of `processKill` (the count of random draws) does
not depend on the state at all. -/
theorem processKill_snd (now : Frac) (r : ℕ → Frac) (s : GameState) (k : ℕ) (a : Alien) :
    (processKill now r (s, k) a).2 = if a.isBoss then k else k + 1 := by
  set_option maxHeartbeats 2000000 in
  simp only [processKill, apply_ite Prod.snd, apply_ite Prod.fst, ite_self]

set_option maxHeartbeats 32000000 in
/-- One kill-loop iteration commutes with `obs`: outside the four erased
fields it reads only kept fields. -/
theorem processKill_obs_fun (now : Frac) (r : ℕ → Frac) (s : GameState) (k : ℕ) (a : Alien) :
    obs (processKill now r (obs s, k) a).1 = obs (processKill now r (s, k) a).1 := by
  ext
  all_goals try rfl
  all_goals
    simp only [processKill, obs, apply_ite GameState.playerX, apply_ite GameState.playerY,
      apply_ite GameState.bullets, apply_ite GameState.aliens, apply_ite GameState.running,
      apply_ite GameState.score, apply_ite GameState.lives, apply_ite GameState.level,
      apply_ite GameState.previousLevel, apply_ite GameState.wave,
      apply_ite GameState.waveKills, apply_ite GameState.waveEnemiesSpawned,
      apply_ite GameState.waveStartTime, apply_ite GameState.status,
      apply_ite GameState.difficultyMode, apply_ite GameState.activePowerUps,
      apply_ite GameState.scoreMultiplier, apply_ite GameState.combo,
      apply_ite GameState.maxCombo, apply_ite GameState.comboTimer,
      apply_ite GameState.comboTier, apply_ite GameState.difficultyBracket,
      apply_ite GameState.bossActive, apply_ite GameState.bossHP,
      apply_ite GameState.bossMaxHP, apply_ite GameState.totalKills,
      apply_ite GameState.missedAliens, apply_ite GameState.escapeStreak,
      apply_ite GameState.victoryType, apply_ite GameState.victoryTitle,
      apply_ite GameState.lastShotTime, apply_ite GameState.missesInWindow,
      apply_ite GameState.missWindowStart, apply_ite GameState.showWaveNotification,
      apply_ite GameState.waveNotificationData, apply_ite GameState.shotsFired,
      apply_ite GameState.shotsHit, apply_ite GameState.gameStartTime,
      apply_ite GameState.powerUpsCollected, apply_ite GameState.wavesCompleted,
      apply_ite Prod.fst, ite_self]
  all_goals first
    | rfl
    | (split_ifs <;> rfl)

/-- Relational form of `processKill_obs_fun`. -/
theorem processKill_obs_rel (now : Frac) (r : ℕ → Frac) (x y : GameState) (k : ℕ)
    (a : Alien) (h : obs x = obs y) :
    obs (processKill now r (x, k) a).1 = obs (processKill now r (y, k) a).1 :=
  calc obs (processKill now r (x, k) a).1
      = obs (processKill now r (obs x, k) a).1 := (processKill_obs_fun now r x k a).symm
    _ = obs (processKill now r (obs y, k) a).1 := by rw [h]
    _ = obs (processKill now r (y, k) a).1 := processKill_obs_fun now r y k a

/-- The kill fold preserves `obs`-equality of its initial state. -/
theorem killFold_obs_rel (now : Frac) (r : ℕ → Frac) (L : List Alien) :
    ∀ (x y : GameState) (k : ℕ), obs x = obs y →
      obs (L.foldl (processKill now r) (x, k)).1 =
        obs (L.foldl (processKill now r) (y, k)).1 := by
  induction L with
  | nil => intro x y k h; exact h
  | cons a rest ih =>
    intro x y k h
    simp only [List.foldl_cons]
    have hx : processKill now r (x, k) a =
        ((processKill now r (x, k) a).1, if a.isBoss then k else k + 1) := by
      rw [← processKill_snd now r x k a]
    have hy : processKill now r (y, k) a =
        ((processKill now r (y, k) a).1, if a.isBoss then k else k + 1) := by
      rw [← processKill_snd now r y k a]
    rw [hx, hy]
    exact ih _ _ _ (processKill_obs_rel now r x y k a h)

/-- `obs`-congruence of the post-collision bookkeeping update. -/
theorem st1_obs_rel (A : List Alien) (n : ℕ) (x y : GameState) (h : obs x = obs y) :
    obs { x with aliens := A, shotsHit := x.shotsHit + n } =
      obs { y with aliens := A, shotsHit := y.shotsHit + n } := by
  have hs0 := congrArg GameState.shotsHit h
  have hs : x.shotsHit = y.shotsHit := hs0
  calc obs { x with aliens := A, shotsHit := x.shotsHit + n }
      = { obs x with aliens := A, shotsHit := x.shotsHit + n } := rfl
    _ = { obs y with aliens := A, shotsHit := y.shotsHit + n } := by rw [h, hs]
    _ = obs { y with aliens := A, shotsHit := y.shotsHit + n } := rfl

/-- `obs`-congruence of the dead-alien and spent-bullet removal filters
(the two record updates merge into one literal). -/
theorem filters_obs_rel (p : Alien → Bool) (q : Bullet → Bool) (x y : GameState)
    (h : obs x = obs y) :
    obs { x with aliens := x.aliens.filter p, bullets := x.bullets.filter q } =
      obs { y with aliens := y.aliens.filter p, bullets := y.bullets.filter q } := by
  have ha0 := congrArg GameState.aliens h
  have ha : x.aliens = y.aliens := ha0
  have hb0 := congrArg GameState.bullets h
  have hb : x.bullets = y.bullets := hb0
  calc obs { x with aliens := x.aliens.filter p, bullets := x.bullets.filter q }
      = { obs x with aliens := x.aliens.filter p, bullets := x.bullets.filter q } := rfl
    _ = { obs y with aliens := y.aliens.filter p, bullets := y.bullets.filter q } := by
        rw [h, ha, hb]
    _ = obs { y with aliens := y.aliens.filter p, bullets := y.bullets.filter q } := rfl

/-- The cannon collision commutes with `obs`: it branches on positions and
lives only, and writes `combo` (erased), `lives`, `aliens` and `status`. -/
theorem cannonStep_obs_fun (s : GameState) : obs (cannonStep (obs s)) = obs (cannonStep s) := by
  simp only [cannonStep, obs]
  cases hf : List.find? (fun a => decide ((a.x - s.playerX) * (a.x - s.playerX) +
      (a.y - s.playerY) * (a.y - s.playerY) < CANNON_HIT_RADIUS_SQ)) s.aliens with
  | none => simp only [hf]
  | some a =>
    simp only [hf]
    split_ifs <;> rfl

/-- Relational form of `cannonStep_obs_fun`. -/
theorem cannonStep_obs_rel (x y : GameState) (h : obs x = obs y) :
    obs (cannonStep x) = obs (cannonStep y) :=
  calc obs (cannonStep x) = obs (cannonStep (obs x)) := (cannonStep_obs_fun x).symm
    _ = obs (cannonStep (obs y)) := by rw [h]
    _ = obs (cannonStep y) := cannonStep_obs_fun y

/-- One escaped-alien iteration commutes with `obs`: the 3-miss window
counters are kept fields, and the erased fields only feed erased fields. -/
theorem missAlienStep_obs_fun (P : ScorePressure) (now : Frac) (s : GameState) (a : Alien) :
    obs (missAlienStep P now (obs s) a) = obs (missAlienStep P now s a) := by
  unfold missAlienStep
  split_ifs
  · simp only [missBase, missComboReset_eq, missBossGameOver_eq, missOverflow_eq,
      missPenalty_eq, missRemove, missFinal_eq, obs]
  · rfl

/-- The escaped-alien fold preserves `obs`-equality (same snapshot list). -/
theorem missFold_obs_aux (P : ScorePressure) (now : Frac) (L : List Alien) :
    ∀ (x y : GameState), obs x = obs y →
      obs (L.foldl (missAlienStep P now) x) = obs (L.foldl (missAlienStep P now) y) := by
  induction L with
  | nil => intro x y h; exact h
  | cons a rest ih =>
    intro x y h
    simp only [List.foldl_cons]
    refine ih _ _ ?_
    calc obs (missAlienStep P now x a)
        = obs (missAlienStep P now (obs x) a) := (missAlienStep_obs_fun P now x a).symm
      _ = obs (missAlienStep P now (obs y) a) := by rw [h]
      _ = obs (missAlienStep P now y a) := missAlienStep_obs_fun P now y a

/-- The escaped-alien pass (snapshot list taken from the state itself)
preserves `obs`-equality. -/
theorem missFold_obs_rel (P : ScorePressure) (now : Frac) (t1 t2 : GameState)
    (h : obs t1 = obs t2) :
    obs (t1.aliens.foldl (missAlienStep P now) t1) =
      obs (t2.aliens.foldl (missAlienStep P now) t2) := by
  have ha0 := congrArg GameState.aliens h
  have ha : t1.aliens = t2.aliens := ha0
  rw [ha]
  exact missFold_obs_aux P now t2.aliens t1 t2 h

/-- Everything after the collision pass preserves `obs`-equality. -/
theorem tickAfterCollide_obs (now : Frac) (r : ℕ → Frac) (P : ScorePressure)
    (C : CollideResult) (x y : GameState) (h : obs x = obs y) :
    obs (tickAfterCollide missAlienStep now r P C x) =
      obs (tickAfterCollide missAlienStep now r P C y) := by
  simp only [tickAfterCollide]
  apply missFold_obs_rel
  apply cannonStep_obs_rel
  apply filters_obs_rel
  apply killFold_obs_rel
  exact st1_obs_rel _ _ _ _ h

end CosmicStrikes

namespace CosmicStrikes

/-- The whole post-idle tick pipeline preserves `obs`-equality: its staged
components (pressure, collision result) depend only on kept fields. -/
theorem tickRest_obs (now : Frac) (r : ℕ → Frac) (ci : ComboInfo) (x y : GameState)
    (h : obs x = obs y) :
    obs (tickRest missAlienStep now r ci x) = obs (tickRest missAlienStep now r ci y) := by
  obtain ⟨e01, e02, e03, e04, e05, e06, e07, e08, e09, e10, e11, e12, e13, e14, e15, e16,
    e17, e18, e19, e20, e21, e22, e23, e24, e25, e26, e27, e28, e29, e30, e31, e32, e33,
    e34, e35, e36⟩ := obs_kept x y h
  simp only [tickRest, missWindowStep_eq, decayStep_eq, expireStep, e01, e02, e03, e04,
    e05, e06, e07, e08, e09, e10, e11, e12, e13, e14, e15, e16, e17, e18, e19, e20, e21,
    e22, e23, e24, e25, e26, e27, e28, e29, e30, e31, e32, e33, e34, e35, e36]
  apply tickAfterCollide_obs
  ext <;> rfl

/-- A tick and its idle-disabled variant agree up to `obs`. -/
theorem tick_vs_noIdle_obs (now : Frac) (r : ℕ → Frac) (s : GameState) :
    obs (tick now r s) = obs (tickNoIdle now r s) := by
  simp only [tick, tickNoIdle]
  exact tickRest_obs now r _ _ _ (obs_idleStep now _)

/-! ### The 3-miss combo reset, observed through `obs3` -/

/-- One escaped-alien iteration commutes with `obs3`: the window counters it
branches on are erased, and every field it writes from them is erased. -/
theorem missAlienStep_obs3_fun (P : ScorePressure) (now : Frac) (s : GameState) (a : Alien) :
    obs3 (missAlienStep P now (obs3 s) a) = obs3 (missAlienStep P now s a) := by
  unfold missAlienStep
  split_ifs
  · simp only [missBase, missComboReset_eq, missBossGameOver_eq, missOverflow_eq,
      missPenalty_eq, missRemove, missFinal_eq, obs3]
  · rfl

/-- Same for the reset-disabled variant. -/
theorem missAlienStepNoReset_obs3_fun (P : ScorePressure) (now : Frac) (s : GameState)
    (a : Alien) :
    obs3 (missAlienStepNoReset P now (obs3 s) a) = obs3 (missAlienStepNoReset P now s a) := by
  unfold missAlienStepNoReset
  split_ifs
  · simp only [missBase, missBossGameOver_eq, missOverflow_eq,
      missPenalty_eq, missRemove, missFinal_eq, obs3]
  · rfl

/-- The 3-miss combo-reset sub-step writes only `obs3`-erased fields, so one
escaped-alien iteration with and without it agree up to `obs3`. -/
theorem missAlienStep_variant_obs3 (P : ScorePressure) (now : Frac) (s : GameState)
    (a : Alien) :
    obs3 (missAlienStepNoReset P now s a) = obs3 (missAlienStep P now s a) := by
  unfold missAlienStep missAlienStepNoReset
  split_ifs
  · simp only [missBase, missComboReset_eq, missBossGameOver_eq, missOverflow_eq,
      missPenalty_eq, missRemove, missFinal_eq, obs3]
  · rfl

/-- Folding the two escaped-alien variants over the same snapshot list from
`obs3`-equal states gives `obs3`-equal results. -/
theorem missFold_variant_obs3 (P : ScorePressure) (now : Frac) (L : List Alien) :
    ∀ (t1 t2 : GameState), obs3 t1 = obs3 t2 →
      obs3 (L.foldl (missAlienStepNoReset P now) t1) =
        obs3 (L.foldl (missAlienStep P now) t2) := by
  induction L with
  | nil => intro t1 t2 h; exact h
  | cons a rest ih =>
    intro t1 t2 h
    simp only [List.foldl_cons]
    refine ih _ _ ?_
    calc obs3 (missAlienStepNoReset P now t1 a)
        = obs3 (missAlienStep P now t1 a) := missAlienStep_variant_obs3 P now t1 a
      _ = obs3 (missAlienStep P now (obs3 t1) a) := (missAlienStep_obs3_fun P now t1 a).symm
      _ = obs3 (missAlienStep P now (obs3 t2) a) := by rw [h]
      _ = obs3 (missAlienStep P now t2 a) := missAlienStep_obs3_fun P now t2 a

/-- A tick and its reset-disabled variant agree up to `obs3`: the two
pipelines coincide up to the escaped-alien fold. -/
theorem tick_vs_noMissReset_obs3 (now : Frac) (r : ℕ → Frac) (s : GameState) :
    obs3 (tickNoMissReset now r s) = obs3 (tick now r s) := by
  simp only [tick, tickNoMissReset, tickRest, tickAfterCollide]
  exact missFold_variant_obs3 _ now _ _ _ rfl

/-! ## Claim C4 (amended): what the two soft penalties can touch -/

/-- Projection facts of the observation maps (syntactic rewrites). -/
theorem obs_lives_eq (s : GameState) : (obs s).lives = s.lives := rfl

theorem obs_status_eq (s : GameState) : (obs s).status = s.status := rfl

theorem obs3_lives_eq (s : GameState) : (obs3 s).lives = s.lives := rfl

theorem obs3_score_eq (s : GameState) : (obs3 s).score = s.score := rfl

theorem obs3_status_eq (s : GameState) : (obs3 s).status = s.status := rfl


/-- C4 amended.  Neither soft-penalty event is game-ending, and neither
touches `lives` or `status`; the 3-miss window reset additionally never
changes the score of the tick in which it fires.  The idle event, however,
is not score-neutral: by resetting the combo before the kill loop runs it
can change which kills reach combo 50, hence whether the one-time `+10000`
PERFECT bonus is paid in that very tick (see
`idle_penalty_changes_score`). -/
theorem soft_penalties_frame_amended :
    (∀ (now : Frac) (r : ℕ → Frac) (s : GameState),
      (tick now r s).lives = (tickNoIdle now r s).lives ∧
      (tick now r s).status = (tickNoIdle now r s).status) ∧
    (∀ (now : Frac) (r : ℕ → Frac) (s : GameState),
      (tick now r s).lives = (tickNoMissReset now r s).lives ∧
      (tick now r s).score = (tickNoMissReset now r s).score ∧
      (tick now r s).status = (tickNoMissReset now r s).status) := by
  constructor
  · intro now r s
    have h := tick_vs_noIdle_obs now r s
    have h1 := congrArg GameState.lives h
    have h2 := congrArg GameState.status h
    rw [obs_lives_eq, obs_lives_eq] at h1
    rw [obs_status_eq, obs_status_eq] at h2
    exact ⟨h1, h2⟩
  · intro now r s
    have h := tick_vs_noMissReset_obs3 now r s
    have h1 := congrArg GameState.lives h
    have h2 := congrArg GameState.score h
    have h3 := congrArg GameState.status h
    rw [obs3_lives_eq, obs3_lives_eq] at h1
    rw [obs3_score_eq, obs3_score_eq] at h2
    rw [obs3_status_eq, obs3_status_eq] at h3
    exact ⟨h1.symm, h2.symm, h3.symm⟩

end CosmicStrikes
